import Mathlib

/-!
# hadoop_exporter: the NameNode collector (namenode_exporter.go)

A shallow embedding of `NewNameNodeExporter`, `Describe` and `Collect`.

* A Go channel send is recorded in a list, in the order of the sends.
* A Go panic (failed type assertion, nil dereference, `MustNewConstMetric`) ends the run;
  the samples sent before it stay sent.  A run is a `Trace`: the samples and the panic, if any.
* The calls into libraries are taken at their results: `http.Get` is a function from the URL to
  the pair `(resp, err)`, `ioutil.ReadAll` is the pair `(data, err)` stored in the response, and
  `data` is either text that is not JSON or the JSON value it denotes.
* The packages `consts` and `structs` are not in `src/`; the constants are parameters
  (`Consts`), the type `structs.JmxBean` is modelled from the specification.
* A float64 is the rational number it denotes; values are only passed through.
-/

set_option autoImplicit false

namespace HadoopExporter

/-! ## Go values -/

/-- The float64 values, each identified with the rational number it denotes. -/
abbrev Float64 := Rat

/-- The values an `interface{}` holds after `encoding/json` decoded into it: nil (JSON null, and
the result of indexing a map at an absent key), bool, float64, string, `[]interface{}` and
`map[string]interface{}`.  The same type serves for the JSON value a response body denotes. -/
inductive Value where
  | nil
  | bool (b : Bool)
  | float64 (x : Float64)
  | string (s : String)
  | slice (xs : List Value)
  | map (kvs : List (String × Value))

/-- A `map[string]interface{}` as the members of the JSON object it was decoded from, in source
order; a key that occurs twice has the value of its last occurrence. -/
abbrev Bean := List (String × Value)

/-- The Go index expression `m[key]` on a `map[string]interface{}`: nil at an absent key. -/
def mapIndex (m : Bean) (key : String) : Value :=
  match List.lookup key m.reverse with
  | some v => v
  | none => Value.nil

/-- The values a Go panic carries in this program. -/
inductive Panic where
  /-- runtime error: invalid memory address or nil pointer dereference -/
  | nilDereference
  /-- interface conversion: the interface holds `dynamic`, not `wanted` -/
  | interfaceConversion (dynamic wanted : String)
  /-- the error `prometheus.MustNewConstMetric` panics with -/
  | mustNewConstMetric (err : String)
  deriving DecidableEq, Repr

/-- The name Go prints for the dynamic type of an interface value. -/
def Value.typeName : Value → String
  | .nil => "nil"
  | .bool _ => "bool"
  | .float64 _ => "float64"
  | .string _ => "string"
  | .slice _ => "[]interface \x7b\x7d"
  | .map _ => "map[string]interface \x7b\x7d"

/-- The type assertion `v.(float64)`. -/
def assertFloat64 : Value → Except Panic Float64
  | .float64 x => .ok x
  | v => .error (.interfaceConversion v.typeName "float64")

/-- The type assertion `v.(string)`. -/
def assertString : Value → Except Panic String
  | .string s => .ok s
  | v => .error (.interfaceConversion v.typeName "string")

/-- The comparison `v == s` of an interface value with a string: true exactly when the dynamic
type is string and the strings are equal. -/
def Value.eqString : Value → String → Bool
  | .string s, t => decide (s = t)
  | _, _ => false

/-- The function `unicode.ToLower` on the runes whose image is an ASCII letter: `A`..`Z`,
U+0130 (to `i`) and U+212A (to `k`).  Every other rune with a lower-case form has a non-ASCII
image, which equals no letter of an ASCII word; such a rune is left as it is. -/
def unicodeToLower (r : Char) : Char :=
  if r = Char.ofNat 0x130 then 'i'
  else if r = Char.ofNat 0x212A then 'k'
  else r.toLower

/-- The function `strings.ToLower`: every rune mapped by `unicode.ToLower`. -/
def stringsToLower (s : String) : String :=
  String.mk (s.data.map unicodeToLower)

/-! ## The prometheus client library -/

/-- A `prometheus.Desc` without constant labels; `err` is the error `NewDesc` stored in it. -/
structure Desc where
  fqName : String
  help : String
  variableLabels : List String
  err : Option String
  deriving DecidableEq, Repr

/-- The check `prometheus.NewDesc` makes of the name, the help text and the label names; its
result is the error stored in the descriptor.  The rule depends on the library version and is
a parameter. -/
abbrev DescCheck := String → String → List String → Option String

/-- The constructor `prometheus.NewDesc(fqName, help, variableLabels, nil)`. -/
def NewDesc (check : DescCheck) (fqName help : String) (variableLabels : List String) : Desc :=
  { fqName := fqName, help := help, variableLabels := variableLabels,
    err := check fqName help variableLabels }

/-- The type `prometheus.ValueType`. -/
inductive ValueType where
  | CounterValue
  | GaugeValue
  | UntypedValue
  deriving DecidableEq, Repr

/-- A constant metric: what `prometheus.NewConstMetric` returns. -/
structure Metric where
  desc : Desc
  valType : ValueType
  val : Float64
  labelValues : List String
  deriving DecidableEq

/-- The function `prometheus.MustNewConstMetric`: it panics when the descriptor carries an error
and when the number of label values differs from the number of variable labels. -/
def MustNewConstMetric (desc : Desc) (valueType : ValueType) (value : Float64)
    (labelValues : List String) : Except Panic Metric :=
  match desc.err with
  | some err => .error (.mustNewConstMetric err)
  | none =>
    if labelValues.length ≠ desc.variableLabels.length then
      .error (.mustNewConstMetric "inconsistent label cardinality")
    else
      .ok { desc := desc, valType := valueType, val := value, labelValues := labelValues }

/-! ## The packages `consts` and `structs` -/

/-- The constants of package `consts` that the collector uses. -/
structure Consts where
  ClusterLabel : String
  HostNameLabel : String
  NNFSMetrics : String
  NNJVMMetrics : String

/-- Modelled from the spec: the type `structs.JmxBean`, which is not in `src/`.  The document
is an ordered sequence of beans under the JSON key `beans`, each bean a mapping from field
name to an untyped value. -/
structure JmxBean where
  Beans : List Bean

/-- The fold of `encoding/json` for member names: two names match when they are equal after
folding; ASCII letters fold to upper case, U+017F folds to `S` and U+212A to `K`. -/
def foldRune (r : Char) : Char :=
  if r = Char.ofNat 0x17F then 'S'
  else if r = Char.ofNat 0x212A then 'K'
  else r.toUpper

/-- Whether a member name of the top-level object selects the field `Beans`. -/
def isBeansKey (key : String) : Bool :=
  decide (key.data.map foldRune = "BEANS".data)

/-- The first error is the one `json.Unmarshal` returns. -/
def firstError (a b : Option String) : Option String :=
  match a with
  | some x => some x
  | none => b

/-- The word `encoding/json` has for a JSON value in the text of a type error. -/
def Value.jsonKind : Value → String
  | .nil => "null"
  | .bool _ => "bool"
  | .float64 _ => "number"
  | .string _ => "string"
  | .slice _ => "array"
  | .map _ => "object"

/-- Decoding one array element into the `map[string]interface{}` that the slice holds at that
index (`target`, the nil map for a new element): an object stores its members into the
map, so the members already there stay unless overwritten; null sets the map to nil; any
other value is a type error and leaves the map. -/
def decodeMap (target : Bean) : Value → Bean × Option String
  | .map kvs => (target ++ kvs, none)
  | .nil => ([], none)
  | v => (target, some ("json: cannot unmarshal " ++ v.jsonKind ++ " into Go struct field JmxBean.beans of type map[string]interface \x7b\x7d"))

/-- Decoding the elements of a JSON array, the element at index `i` into the element the
backing array of the slice holds at index `i`, keeping the first error. -/
def decodeElems : List Bean → List Value → List Bean × Option String
  | _, [] => ([], none)
  | backing, v :: rest =>
    ((decodeMap (backing.headD []) v).1 :: (decodeElems backing.tail rest).1,
     firstError (decodeMap (backing.headD []) v).2 (decodeElems backing.tail rest).2)

/-- The slice in the field `Beans` while `json.Unmarshal` runs: the elements written to its
backing array so far, and its length.  A shorter array only truncates the slice; its old
elements stay in the backing array and a later array decodes into them. -/
structure BeansSlice where
  backing : List Bean
  len : Nat

/-- The nil slice. -/
def BeansSlice.empty : BeansSlice := { backing := [], len := 0 }

/-- The elements of the slice. -/
def BeansSlice.elems (s : BeansSlice) : List Bean := s.backing.take s.len

/-- Decoding a value into the field `Beans`.  An array decodes its elements into the elements
of the backing array, sets the length to the number of elements, and an empty array stores
a new empty slice; null sets the slice to nil; any other value is a type error and leaves the
slice. -/
def decodeBeans (old : BeansSlice) : Value → BeansSlice × Option String
  | .slice [] => (BeansSlice.empty, none)
  | .slice (x :: xs) =>
    ({ backing := (decodeElems old.backing (x :: xs)).1 ++ old.backing.drop (x :: xs).length,
       len := (x :: xs).length },
     (decodeElems old.backing (x :: xs)).2)
  | .nil => (BeansSlice.empty, none)
  | v => (old, some ("json: cannot unmarshal " ++ v.jsonKind ++ " into Go struct field JmxBean.beans of type []map[string]interface \x7b\x7d"))

/-- Decoding the members of the top-level object in turn; members that do not select `Beans`
are skipped. -/
def decodeMembers (old : BeansSlice) : List (String × Value) → BeansSlice × Option String
  | [] => (old, none)
  | (key, v) :: rest =>
    if isBeansKey key then
      let r := decodeBeans old v
      let r2 := decodeMembers r.1 rest
      (r2.1, firstError r.2 r2.2)
    else
      decodeMembers old rest

/-- The bytes `ioutil.ReadAll` returned, as `json.Unmarshal` sees them: text that is not valid
JSON (with the syntax error), or the JSON value the text denotes. -/
inductive Payload where
  | invalid (syntaxError : String)
  | valid (v : Value)

/-- The call `json.Unmarshal(data, &bean)` on the zero `structs.JmxBean`: the decoded value and
the error.  Invalid text is rejected before anything is stored; null stores nothing; a
top-level value that is not an object is a type error. -/
def jsonUnmarshal : Payload → JmxBean × Option String
  | .invalid syntaxError => ({ Beans := [] }, some syntaxError)
  | .valid .nil => ({ Beans := [] }, none)
  | .valid (.map kvs) =>
    ({ Beans := (decodeMembers BeansSlice.empty kvs).1.elems },
     (decodeMembers BeansSlice.empty kvs).2)
  | .valid v => ({ Beans := [] }, some ("json: cannot unmarshal " ++ v.jsonKind ++ " into Go value of type structs.JmxBean"))

/-! ## net/http -/

/-- What `ioutil.ReadAll(resp.Body)` returns. -/
structure ReadAllResult where
  data : Payload
  err : Option String

/-- An `http.Response`: the status code and the body, taken at the result of reading it. -/
structure Response where
  StatusCode : Nat
  Body : ReadAllResult

/-- What `http.Get` returns: the response pointer (`none` is nil) and the error. -/
structure GetResult where
  resp : Option Response
  err : Option String

/-! ## namenode_exporter.go -/

/-- The variable `NameNodeLabel`. -/
def NameNodeLabel (c : Consts) : List String := [c.ClusterLabel, c.HostNameLabel]

/-- The struct `NameNodeExportOpt`. -/
structure NameNodeExportOpt where
  PromNamespace : String
  Hostname : String
  JmxUrl : String
  cluster : String

/-- The struct `NameNodeExporter`; the descriptor fields in the order of their declaration. -/
structure NameNodeExporter where
  PromNamespace : String
  Hostname : String
  JmxUrl : String
  cluster : String
  TotalLoad : Desc
  MissingBlocks : Desc
  CorruptBlocks : Desc
  ExcessBlocks : Desc
  BlocksTotal : Desc
  FilesTotal : Desc
  ExpiredHeartbeats : Desc
  LastCheckpointTime : Desc
  CapacityTotal : Desc
  CapacityUsed : Desc
  CapacityRemaining : Desc
  CapacityUsedNonDFS : Desc
  StaleDataNodes : Desc
  NumLiveDataNodes : Desc
  NumDeadDataNodes : Desc
  VolumeFailuresTotal : Desc
  EstimatedCapacityLostTotal : Desc
  HAState : Desc
  GcCount : Desc
  GcTimeMillis : Desc
  MemNonHeapMaxM : Desc
  MemNonHeapUsedM : Desc
  MemHeapMaxM : Desc
  MemHeapUsedM : Desc
  MemMaxM : Desc

/-- The function `NewNameNodeExporter`. -/
def NewNameNodeExporter (c : Consts) (check : DescCheck) (opt : NameNodeExportOpt) :
    NameNodeExporter :=
  let descNamePrefix := opt.PromNamespace ++ "_"
  { PromNamespace := opt.PromNamespace
    Hostname := opt.Hostname
    JmxUrl := opt.JmxUrl
    cluster := opt.cluster
    TotalLoad := NewDesc check
      ( descNamePrefix ++ "TotalLoad") "Current number of connections"
      (NameNodeLabel c)
    MissingBlocks := NewDesc check
      ( descNamePrefix ++ "MissingBlocks") "Current number of missing blocks"
      (NameNodeLabel c)
    CorruptBlocks := NewDesc check
      ( descNamePrefix ++ "CorruptBlocks") "Current number of blocks with corrupt replicas"
      (NameNodeLabel c)
    ExcessBlocks := NewDesc check
      ( descNamePrefix ++ "ExcessBlocks") "Current number of excess blocks"
      (NameNodeLabel c)
    BlocksTotal := NewDesc check
      ( descNamePrefix ++ "BlocksTotal") "Current number of allocated blocks in the system"
      (NameNodeLabel c)
    FilesTotal := NewDesc check
      ( descNamePrefix ++ "FilesTotal") "Current number of files and directories"
      (NameNodeLabel c)
    ExpiredHeartbeats := NewDesc check
      ( descNamePrefix ++ "ExpiredHeartbeats") "Total number of expired heartbeats"
      (NameNodeLabel c)
    LastCheckpointTime := NewDesc check
      ( descNamePrefix ++ "LastCheckpointTime") "\tTime in milliseconds since epoch of last checkpoint"
      (NameNodeLabel c)
    CapacityTotal := NewDesc check
      ( descNamePrefix ++ "CapacityTotal") "Current raw capacity of DataNodes in bytes"
      (NameNodeLabel c)
    CapacityUsed := NewDesc check
      ( descNamePrefix ++ "CapacityUsed") "Current used capacity across all DataNodes in bytes"
      (NameNodeLabel c)
    CapacityRemaining := NewDesc check
      ( descNamePrefix ++ "CapacityRemaining") "Current remaining capacity in bytes"
      (NameNodeLabel c)
    CapacityUsedNonDFS := NewDesc check
      ( descNamePrefix ++ "CapacityUsedNonDFS") "Current space used by DataNodes for non DFS purposes in bytes"
      (NameNodeLabel c)
    StaleDataNodes := NewDesc check
      ( descNamePrefix ++ "StaleDataNodes") "Current number of DataNodes marked stale due to delayed heartbeat"
      (NameNodeLabel c)
    NumLiveDataNodes := NewDesc check
      ( descNamePrefix ++ "NumLiveDataNodes") "Number of datanodes which are currently live"
      (NameNodeLabel c)
    NumDeadDataNodes := NewDesc check
      ( descNamePrefix ++ "NumDeadDataNodes") "Number of datanodes which are currently dead"
      (NameNodeLabel c)
    VolumeFailuresTotal := NewDesc check
      ( descNamePrefix ++ "VolumeFailuresTotal") "Total number of volume failures across all Datanodes"
      (NameNodeLabel c)
    EstimatedCapacityLostTotal := NewDesc check
      ( descNamePrefix ++ "EstimatedCapacityLostTotal") "An estimate of the total capacity lost due to volume failures"
      (NameNodeLabel c)
    HAState := NewDesc check
      ( descNamePrefix ++ "HAState") "(HA-only) Current state of the NameNode: initializing or active or standby or stopping state"
      (NameNodeLabel c)
    GcCount := NewDesc check
      ( descNamePrefix ++ "GcCount") "Total GC count"
      (NameNodeLabel c)
    GcTimeMillis := NewDesc check
      ( descNamePrefix ++ "GcTimeMillis") "Total GC time in msec"
      (NameNodeLabel c)
    MemNonHeapMaxM := NewDesc check
      ( descNamePrefix ++ "MemNonHeapMaxM") "Max non-heap memory size in MB"
      (NameNodeLabel c)
    MemNonHeapUsedM := NewDesc check
      ( descNamePrefix ++ "MemNonHeapUsedM") "Current non-heap memory used in MB"
      (NameNodeLabel c)
    MemHeapMaxM := NewDesc check
      ( descNamePrefix ++ "MemHeapMaxM") "Max heap memory size in MB"
      (NameNodeLabel c)
    MemHeapUsedM := NewDesc check
      ( descNamePrefix ++ "MemHeapUsedM") "Current heap memory used in MB"
      (NameNodeLabel c)
    MemMaxM := NewDesc check
      ( descNamePrefix ++ "MemMaxM") "Max memory size in MB"
      (NameNodeLabel c) }

/-- The method `Describe`: the descriptors sent on `ch`, in the order of the sends. -/
def Describe (e : NameNodeExporter) : List Desc :=
  [ e.TotalLoad,
    e.MissingBlocks,
    e.CorruptBlocks,
    e.ExcessBlocks,
    e.BlocksTotal,
    e.FilesTotal,
    e.ExpiredHeartbeats,
    e.LastCheckpointTime,
    e.CapacityUsed,
    e.CapacityTotal,
    e.CapacityRemaining,
    e.StaleDataNodes,
    e.NumLiveDataNodes,
    e.NumDeadDataNodes,
    e.VolumeFailuresTotal,
    e.EstimatedCapacityLostTotal,
    e.HAState,
    e.GcCount,
    e.GcTimeMillis,
    e.MemMaxM,
    e.MemNonHeapMaxM,
    e.MemNonHeapUsedM,
    e.MemHeapMaxM,
    e.MemHeapUsedM ]

/-- A run of statements: the metrics sent on `ch`, in order, and the panic that ended the run,
if one did. -/
structure Trace where
  sent : List Metric
  panic : Option Panic
  deriving DecidableEq

/-- The empty statement. -/
def Trace.skip : Trace := { sent := [], panic := none }

/-- Sequencing: the second run happens only when the first did not panic. -/
def Trace.andThen (a b : Trace) : Trace :=
  match a.panic with
  | some p => { sent := a.sent, panic := some p }
  | none => { sent := a.sent ++ b.sent, panic := b.panic }

/-- A block of statements, run in order. -/
def Trace.block : List Trace → Trace
  | [] => Trace.skip
  | s :: rest => s.andThen (Trace.block rest)

/-- The statement `ch <- prometheus.MustNewConstMetric(desc, prometheus.GaugeValue, value,
labelValues...)`: the operand `value` is evaluated first and may panic, then the call may
panic, then the metric is sent. -/
def sendGauge (desc : Desc) (value : Except Panic Float64) (labelValues : List String) : Trace :=
  match value with
  | .error p => { sent := [], panic := some p }
  | .ok x =>
    match MustNewConstMetric desc ValueType.GaugeValue x labelValues with
    | .error p => { sent := [], panic := some p }
    | .ok m => { sent := [m], panic := none }

/-- The `switch strings.ToLower(DataMap["tag.HAState"].(string))` statement of `Collect`. -/
def switchHAState (e : NameNodeExporter) (DataMap : Bean) : Trace :=
  match assertString (mapIndex DataMap "tag.HAState") with
  | .error p => { sent := [], panic := some p }
  | .ok s =>
    let tag := stringsToLower s
    if tag = "stopping" then
      sendGauge e.HAState (.ok 0) [e.cluster, e.Hostname]
    else if tag = "active" then
      sendGauge e.HAState (.ok 1) [e.cluster, e.Hostname]
    else if tag = "initializing" then
      sendGauge e.HAState (.ok 3) [e.cluster, e.Hostname]
    else if tag = "standby" then
      sendGauge e.HAState (.ok 4) [e.cluster, e.Hostname]
    else
      sendGauge e.HAState (.ok (-1)) [e.cluster, e.Hostname]

/-- The body of `if DataMap["name"] == consts.NNFSMetrics` in `Collect`. -/
def collectFSMetrics (e : NameNodeExporter) (DataMap : Bean) : Trace :=
  Trace.block [
    sendGauge e.TotalLoad (assertFloat64 (mapIndex DataMap "TotalLoad")) [e.cluster, e.Hostname],
    sendGauge e.MissingBlocks (assertFloat64 (mapIndex DataMap "MissingBlocks")) [e.cluster, e.Hostname],
    sendGauge e.CorruptBlocks (assertFloat64 (mapIndex DataMap "CorruptBlocks")) [e.cluster, e.Hostname],
    sendGauge e.ExcessBlocks (assertFloat64 (mapIndex DataMap "ExcessBlocks")) [e.cluster, e.Hostname],
    sendGauge e.BlocksTotal (assertFloat64 (mapIndex DataMap "BlocksTotal")) [e.cluster, e.Hostname],
    sendGauge e.FilesTotal (assertFloat64 (mapIndex DataMap "FilesTotal")) [e.cluster, e.Hostname],
    sendGauge e.LastCheckpointTime (assertFloat64 (mapIndex DataMap "LastCheckpointTime")) [e.cluster, e.Hostname],
    sendGauge e.CapacityTotal (assertFloat64 (mapIndex DataMap "CapacityTotal")) [e.cluster, e.Hostname],
    sendGauge e.CapacityUsed (assertFloat64 (mapIndex DataMap "CapacityUsed")) [e.cluster, e.Hostname],
    sendGauge e.CapacityRemaining (assertFloat64 (mapIndex DataMap "CapacityRemaining")) [e.cluster, e.Hostname],
    sendGauge e.CapacityUsedNonDFS (assertFloat64 (mapIndex DataMap "CapacityUsedNonDFS")) [e.cluster, e.Hostname],
    sendGauge e.StaleDataNodes (assertFloat64 (mapIndex DataMap "StaleDataNodes")) [e.cluster, e.Hostname],
    sendGauge e.NumLiveDataNodes (assertFloat64 (mapIndex DataMap "NumLiveDataNodes")) [e.cluster, e.Hostname],
    sendGauge e.NumDeadDataNodes (assertFloat64 (mapIndex DataMap "NumDeadDataNodes")) [e.cluster, e.Hostname],
    sendGauge e.VolumeFailuresTotal (assertFloat64 (mapIndex DataMap "VolumeFailuresTotal")) [e.cluster, e.Hostname],
    sendGauge e.EstimatedCapacityLostTotal (assertFloat64 (mapIndex DataMap "EstimatedCapacityLostTotal")) [e.cluster, e.Hostname],
    switchHAState e DataMap ]

/-- The body of `if DataMap["name"] == consts.NNJVMMetrics` in `Collect`. -/
def collectJVMMetrics (e : NameNodeExporter) (DataMap : Bean) : Trace :=
  Trace.block [
    sendGauge e.GcCount (assertFloat64 (mapIndex DataMap "GcCount")) [e.cluster, e.Hostname],
    sendGauge e.GcTimeMillis (assertFloat64 (mapIndex DataMap "GcTimeMillis")) [e.cluster, e.Hostname],
    sendGauge e.MemMaxM (assertFloat64 (mapIndex DataMap "MemMaxM")) [e.cluster, e.Hostname],
    sendGauge e.MemHeapUsedM (assertFloat64 (mapIndex DataMap "MemHeapUsedM")) [e.cluster, e.Hostname],
    sendGauge e.MemHeapMaxM (assertFloat64 (mapIndex DataMap "MemHeapMaxM")) [e.cluster, e.Hostname],
    sendGauge e.MemNonHeapUsedM (assertFloat64 (mapIndex DataMap "MemNonHeapUsedM")) [e.cluster, e.Hostname],
    sendGauge e.MemNonHeapMaxM (assertFloat64 (mapIndex DataMap "MemNonHeapMaxM")) [e.cluster, e.Hostname] ]

/-- The body of the loop `for _, DataMap := range bean.Beans` in `Collect`. -/
def collectBean (c : Consts) (e : NameNodeExporter) (DataMap : Bean) : Trace :=
  Trace.andThen
    (if (mapIndex DataMap "name").eqString c.NNFSMetrics then collectFSMetrics e DataMap
     else Trace.skip)
    (if (mapIndex DataMap "name").eqString c.NNJVMMetrics then collectJVMMetrics e DataMap
     else Trace.skip)

/-- The loop `for _, DataMap := range bean.Beans` in `Collect`. -/
def collectBeans (c : Consts) (e : NameNodeExporter) : List Bean → Trace
  | [] => Trace.skip
  | DataMap :: rest => (collectBean c e DataMap).andThen (collectBeans c e rest)

/-- The lines `fmt.Println(err)` guarded by `if err != nil`. -/
def printErr : Option String → List String
  | some err => [err]
  | none => []

/-- What one call of `Collect` does: the lines printed, the metrics sent on `ch` and the panic
that ended the call, if one did. -/
structure CollectResult where
  stdout : List String
  ch : List Metric
  panic : Option Panic
  deriving DecidableEq

/-- The method `Collect`.  The statement `defer resp.Body.Close()` dereferences `resp` when it
is executed, after the error of `http.Get` was printed. -/
def Collect (c : Consts) (httpGet : String → GetResult) (e : NameNodeExporter) : CollectResult :=
  let r := httpGet e.JmxUrl
  let out1 := printErr r.err
  match r.resp with
  | none => { stdout := out1, ch := [], panic := some Panic.nilDereference }
  | some resp =>
    let out2 := printErr resp.Body.err
    let u := jsonUnmarshal resp.Body.data
    let out3 := printErr u.2
    let t := collectBeans c e u.1.Beans
    { stdout := out1 ++ out2 ++ out3, ch := t.sent, panic := t.panic }

/-! ## Views of the code used to state its properties -/

/-- Whether the dynamic type of an interface value is float64. -/
def Value.isFloat64 : Value → Bool
  | .float64 _ => true
  | _ => false

/-- Whether the dynamic type of an interface value is string. -/
def Value.isString : Value → Bool
  | .string _ => true
  | _ => false

/-- The float64 held by an interface value (0 when it holds none). -/
def Value.toFloat64 : Value → Float64
  | .float64 x => x
  | _ => 0

/-- The string held by an interface value (empty when it holds none). -/
def Value.toStr : Value → String
  | .string s => s
  | _ => ""

/-- The letters in their two cases, as pairs of the capital and the small rune, for the small
runes `a`..`z`: the 26 ASCII pairs and the two other runes whose small form in Unicode is an
ASCII letter, U+0130 (capital I with dot above, small form `i`) and U+212A (the Kelvin sign,
small form `k`). -/
def capitalSmallPairs : List (Char × Char) :=
  [ ('A', 'a'), ('B', 'b'), ('C', 'c'), ('D', 'd'), ('E', 'e'), ('F', 'f'), ('G', 'g'),
    ('H', 'h'), ('I', 'i'), ('J', 'j'), ('K', 'k'), ('L', 'l'), ('M', 'm'), ('N', 'n'),
    ('O', 'o'), ('P', 'p'), ('Q', 'q'), ('R', 'r'), ('S', 's'), ('T', 't'), ('U', 'u'),
    ('V', 'v'), ('W', 'w'), ('X', 'x'), ('Y', 'y'), ('Z', 'z'),
    (Char.ofNat 0x130, 'i'), (Char.ofNat 0x212A, 'k') ]

/-- Two runes are the same letter ignoring case: they are equal, or one is the capital and the
other the small rune of one pair. -/
def sameLetter (a b : Char) : Bool :=
  decide (a = b) || capitalSmallPairs.contains (a, b) || capitalSmallPairs.contains (b, a)

/-- Two lists of runes are equal ignoring letter case: they have the same length and hold the
same letter at every position. -/
def equalIgnoringCase : List Char → List Char → Bool
  | [], [] => true
  | a :: as, b :: bs => sameLetter a b && equalIgnoringCase as bs
  | _, _ => false

/-- Equality of two strings ignoring letter case.  It is stated on the runes of the strings
by the table of letters, without any function that changes the case. -/
def EqualsIgnoreCase (s t : String) : Prop :=
  equalIgnoringCase s.data t.data = true

instance (s t : String) : Decidable (EqualsIgnoreCase s t) :=
  inferInstanceAs (Decidable (equalIgnoringCase s.data t.data = true))

/-- The table of the specification for the HA state: stopping 0, active 1, initializing 3,
standby 4, anything else -1, compared ignoring letter case. -/
def specHAStateCode (s : String) : Float64 :=
  if EqualsIgnoreCase s "stopping" then 0
  else if EqualsIgnoreCase s "active" then 1
  else if EqualsIgnoreCase s "initializing" then 3
  else if EqualsIgnoreCase s "standby" then 4
  else -1

/-- The descriptor fields of `NameNodeExporter`, in the order of their declaration. -/
def declaredDescs (e : NameNodeExporter) : List Desc :=
  [ e.TotalLoad, e.MissingBlocks, e.CorruptBlocks, e.ExcessBlocks, e.BlocksTotal, e.FilesTotal,
    e.ExpiredHeartbeats, e.LastCheckpointTime, e.CapacityTotal, e.CapacityUsed,
    e.CapacityRemaining, e.CapacityUsedNonDFS, e.StaleDataNodes, e.NumLiveDataNodes,
    e.NumDeadDataNodes, e.VolumeFailuresTotal, e.EstimatedCapacityLostTotal, e.HAState,
    e.GcCount, e.GcTimeMillis, e.MemNonHeapMaxM, e.MemNonHeapUsedM, e.MemHeapMaxM,
    e.MemHeapUsedM, e.MemMaxM ]

/-- The two selectors `Collect` compares a bean name with. -/
inductive Selector where
  | fs
  | jvm
  deriving DecidableEq

/-- The constant a selector stands for. -/
def Selector.name (c : Consts) : Selector → String
  | .fs => c.NNFSMetrics
  | .jvm => c.NNJVMMetrics

/-- The other selector. -/
def Selector.other : Selector → Selector
  | .fs => .jvm
  | .jvm => .fs

/-- The block `Collect` runs for a bean that matches the selector. -/
def Selector.block (e : NameNodeExporter) (DataMap : Bean) : Selector → Trace
  | .fs => collectFSMetrics e DataMap
  | .jvm => collectJVMMetrics e DataMap

/-- The numeric fields a block reads with `.(float64)`, in the order of the reads. -/
def Selector.fields : Selector → List String
  | .fs => ["TotalLoad", "MissingBlocks", "CorruptBlocks", "ExcessBlocks", "BlocksTotal",
      "FilesTotal", "LastCheckpointTime", "CapacityTotal", "CapacityUsed", "CapacityRemaining",
      "CapacityUsedNonDFS", "StaleDataNodes", "NumLiveDataNodes", "NumDeadDataNodes",
      "VolumeFailuresTotal", "EstimatedCapacityLostTotal"]
  | .jvm => ["GcCount", "GcTimeMillis", "MemMaxM", "MemHeapUsedM", "MemHeapMaxM",
      "MemNonHeapUsedM", "MemNonHeapMaxM"]

/-- One statement of a block: a gauge read from a float64 field, or the HA-state switch. -/
inductive Read where
  | gauge (desc : Desc) (field : String)
  | haState

/-- The statements of a block, in order. -/
def Selector.reads (e : NameNodeExporter) : Selector → List Read
  | .fs => [
      .gauge e.TotalLoad "TotalLoad",
      .gauge e.MissingBlocks "MissingBlocks",
      .gauge e.CorruptBlocks "CorruptBlocks",
      .gauge e.ExcessBlocks "ExcessBlocks",
      .gauge e.BlocksTotal "BlocksTotal",
      .gauge e.FilesTotal "FilesTotal",
      .gauge e.LastCheckpointTime "LastCheckpointTime",
      .gauge e.CapacityTotal "CapacityTotal",
      .gauge e.CapacityUsed "CapacityUsed",
      .gauge e.CapacityRemaining "CapacityRemaining",
      .gauge e.CapacityUsedNonDFS "CapacityUsedNonDFS",
      .gauge e.StaleDataNodes "StaleDataNodes",
      .gauge e.NumLiveDataNodes "NumLiveDataNodes",
      .gauge e.NumDeadDataNodes "NumDeadDataNodes",
      .gauge e.VolumeFailuresTotal "VolumeFailuresTotal",
      .gauge e.EstimatedCapacityLostTotal "EstimatedCapacityLostTotal",
      .haState ]
  | .jvm => [
      .gauge e.GcCount "GcCount",
      .gauge e.GcTimeMillis "GcTimeMillis",
      .gauge e.MemMaxM "MemMaxM",
      .gauge e.MemHeapUsedM "MemHeapUsedM",
      .gauge e.MemHeapMaxM "MemHeapMaxM",
      .gauge e.MemNonHeapUsedM "MemNonHeapUsedM",
      .gauge e.MemNonHeapMaxM "MemNonHeapMaxM" ]

/-- The field of the bean a statement reads. -/
def Read.field : Read → String
  | .gauge _ field => field
  | .haState => "tag.HAState"

/-- The descriptor a statement builds its metric with. -/
def Read.desc (e : NameNodeExporter) : Read → Desc
  | .gauge desc _ => desc
  | .haState => e.HAState

/-- The Go type a statement asserts its field to have. -/
def Read.wanted : Read → String
  | .gauge _ _ => "float64"
  | .haState => "string"

/-- Whether the field a statement reads is present in the bean with the asserted type. -/
def Read.WellTyped (DataMap : Bean) : Read → Bool
  | .gauge _ field => (mapIndex DataMap field).isFloat64
  | .haState => (mapIndex DataMap "tag.HAState").isString

/-- The statement itself, as `Collect` runs it. -/
def Read.run (e : NameNodeExporter) (DataMap : Bean) : Read → Trace
  | .gauge desc field =>
    sendGauge desc (assertFloat64 (mapIndex DataMap field)) [e.cluster, e.Hostname]
  | .haState => switchHAState e DataMap

/-- The value of the sample a statement sends for a well-typed field. -/
def Read.value (DataMap : Bean) : Read → Float64
  | .gauge _ field => (mapIndex DataMap field).toFloat64
  | .haState => specHAStateCode (mapIndex DataMap "tag.HAState").toStr

/-- The sample a statement sends for a well-typed field. -/
def Read.sample (e : NameNodeExporter) (DataMap : Bean) (r : Read) : Metric :=
  { desc := r.desc e, valType := ValueType.GaugeValue, val := r.value DataMap,
    labelValues := [e.cluster, e.Hostname] }

/-- The panic of a statement whose field is absent or has another type. -/
def Read.panicOf (DataMap : Bean) (r : Read) : Panic :=
  Panic.interfaceConversion (mapIndex DataMap r.field).typeName r.wanted

/-- Whether the name of a bean equals a selector. -/
def Selector.matches (c : Consts) (DataMap : Bean) (sel : Selector) : Bool :=
  (mapIndex DataMap "name").eqString (sel.name c)

/-- Whether a response body has a top-level `beans` array: it is valid JSON, an object, and a
member that selects `Beans` has an array as its value. -/
def hasBeansArray : Payload → Bool
  | .valid (.map kvs) => kvs.any (fun kv => isBeansKey kv.1 && (match kv.2 with | .slice _ => true | _ => false))
  | _ => false

/-- Whether a response body is a JSON object with a member named exactly `beans` whose value
is an array. -/
def hasMemberBeansArray : Payload → Bool
  | .valid (.map kvs) => kvs.any (fun kv => decide (kv.1 = "beans") && (match kv.2 with | .slice _ => true | _ => false))
  | _ => false

/-- The descriptors of the exporter carry no error: `NewDesc` accepted every name.  `main`
registers the exporter with `prometheus.MustRegister`, which panics at start-up on a described
descriptor with an error, so `Collect` is called on exporters whose descriptors were accepted. -/
def Accepted (e : NameNodeExporter) : Prop :=
  ∀ d ∈ declaredDescs e, d.err = none

instance (e : NameNodeExporter) : Decidable (Accepted e) :=
  inferInstanceAs (Decidable (∀ d ∈ declaredDescs e, d.err = none))

/-- The position of the first sample with the given descriptor in a list of samples. -/
def samplePos (d : Desc) (ch : List Metric) : Nat :=
  (ch.map (fun m => m.desc)).indexOf d

/-- The names of the statistics of a block, in the order of the sends: the numeric fields and,
for the filesystem block, `HAState`. -/
def Selector.stats : Selector → List String
  | .fs => Selector.fs.fields ++ ["HAState"]
  | .jvm => Selector.jvm.fields

/-- The names of the statistics the struct `NameNodeExporter` declares a descriptor for, in the
order of the declarations. -/
def declaredStats : List String :=
  [ "TotalLoad", "MissingBlocks", "CorruptBlocks", "ExcessBlocks", "BlocksTotal", "FilesTotal",
    "ExpiredHeartbeats", "LastCheckpointTime", "CapacityTotal", "CapacityUsed",
    "CapacityRemaining", "CapacityUsedNonDFS", "StaleDataNodes", "NumLiveDataNodes",
    "NumDeadDataNodes", "VolumeFailuresTotal", "EstimatedCapacityLostTotal", "HAState",
    "GcCount", "GcTimeMillis", "MemNonHeapMaxM", "MemNonHeapUsedM", "MemHeapMaxM",
    "MemHeapUsedM", "MemMaxM" ]

/-- The descriptors the block of a selector builds its samples with, in the order of the
sends. -/
def Selector.descs (e : NameNodeExporter) (sel : Selector) : List Desc :=
  (sel.reads e).map (Read.desc e)

/-- The same result of `http.Get` with another status code on the response, if there is one. -/
def GetResult.withStatus (code : Nat) (r : GetResult) : GetResult :=
  { resp := r.resp.map (fun resp => { StatusCode := code, Body := resp.Body }), err := r.err }

/-! ## Concrete inputs -/

/-- Values for the constants of package `consts`. -/
def exConsts : Consts :=
  { ClusterLabel := "cluster", HostNameLabel := "hostname",
    NNFSMetrics := "Hadoop:service=NameNode,name=FSNamesystem",
    NNJVMMetrics := "Hadoop:service=NameNode,name=JvmMetrics" }

/-- A library check that accepts the names of this exporter. -/
def exCheck : DescCheck := fun _ _ _ => none

/-- The options `main` builds the exporter with. -/
def mainOpt : NameNodeExportOpt :=
  { PromNamespace := "namenode", Hostname := "hdfs1",
    JmxUrl := "http://82.157.57.170:50070/jmx", cluster := "testcluster" }

/-- The exporter `main` registers. -/
def exExporter : NameNodeExporter := NewNameNodeExporter exConsts exCheck mainOpt

/-- A filesystem bean whose 16 numeric fields are float64, with the given `tag.HAState`
members appended. -/
def exFSBean (tail : List (String × Value)) : Bean :=
  [ ("name", .string "Hadoop:service=NameNode,name=FSNamesystem"),
    ("TotalLoad", .float64 12), ("MissingBlocks", .float64 0), ("CorruptBlocks", .float64 1),
    ("ExcessBlocks", .float64 2), ("BlocksTotal", .float64 1000), ("FilesTotal", .float64 2000),
    ("ExpiredHeartbeats", .float64 7),
    ("LastCheckpointTime", .float64 1600000000000), ("CapacityTotal", .float64 5000),
    ("CapacityUsed", .float64 3000), ("CapacityRemaining", .float64 1500),
    ("CapacityUsedNonDFS", .float64 500), ("StaleDataNodes", .float64 0),
    ("NumLiveDataNodes", .float64 3), ("NumDeadDataNodes", .float64 1),
    ("VolumeFailuresTotal", .float64 0), ("EstimatedCapacityLostTotal", .float64 0) ] ++ tail

/-- A well-typed filesystem bean in state `Active`. -/
def exFSActive : Bean := exFSBean [("tag.HAState", .string "Active")]

/-- A filesystem bean with the 16 numeric fields and no `tag.HAState`. -/
def exFSNoHA : Bean := exFSBean []

/-- A JVM bean with the given value of `GcCount`; the other six fields are float64. -/
def exJVMBean (gcCount : Value) : Bean :=
  [ ("name", .string "Hadoop:service=NameNode,name=JvmMetrics"),
    ("GcCount", gcCount), ("GcTimeMillis", .float64 250), ("MemMaxM", .float64 889),
    ("MemHeapUsedM", .float64 100), ("MemHeapMaxM", .float64 800),
    ("MemNonHeapUsedM", .float64 50), ("MemNonHeapMaxM", .float64 (-1)) ]

/-- A well-typed JVM bean. -/
def exJVMGood : Bean := exJVMBean (.float64 40)

/-- A JVM bean whose `GcCount` is a string. -/
def exJVMBad : Bean := exJVMBean (.string "40")

/-- A bean that matches neither selector. -/
def exOtherBean : Bean :=
  [ ("name", .string "java.lang:type=MemoryPool,name=Code Cache"), ("TotalLoad", .float64 5),
    ("GcCount", .string "x") ]

/-- The JSON document with the given beans under the key `beans`. -/
def exDoc (beans : List Bean) : Value :=
  .map [("beans", .slice (beans.map Value.map))]

/-- An `http.Get` that succeeds with the given status and a body that reads as the value. -/
def exGet (status : Nat) (v : Value) : String → GetResult :=
  fun _ => { resp := some { StatusCode := status, Body := { data := .valid v, err := none } },
             err := none }

/-- An `http.Get` that succeeds with status 200 and a body that reads as the payload. -/
def exGetPayload (p : Payload) : String → GetResult :=
  fun _ => { resp := some { StatusCode := 200, Body := { data := p, err := none } },
             err := none }

/-- An `http.Get` that fails with a transport error. -/
def exGetFails : String → GetResult :=
  fun _ => { resp := none, err := some "Get: dial tcp: connection refused" }

/-- A JVM bean without `MemHeapMaxM`; the other six fields are float64. -/
def exJVMNoHeapMax : Bean :=
  [ ("name", .string "Hadoop:service=NameNode,name=JvmMetrics"),
    ("GcCount", .float64 40), ("GcTimeMillis", .float64 250), ("MemMaxM", .float64 889),
    ("MemHeapUsedM", .float64 100), ("MemNonHeapUsedM", .float64 50),
    ("MemNonHeapMaxM", .float64 (-1)) ]

/-- A body that is not JSON: the empty text, with the error `json.Unmarshal` returns for it. -/
def exNotJSON : Payload := Payload.invalid "unexpected end of JSON input"

/-- A document with a JVM bean and a bean of another name, and no filesystem bean. -/
def exSparseDoc : Value := exDoc [exJVMGood, exOtherBean]

/-- The response that carries `exSparseDoc`. -/
def exSparseResp : Response :=
  { StatusCode := 200, Body := { data := Payload.valid exSparseDoc, err := none } }

/-- A document whose only member is named `BEANS`, with a well-typed JVM bean in its array. -/
def exUpperDoc : Value := .map [("BEANS", .slice [.map exJVMGood])]

/-- A document with a JVM bean, a well-typed filesystem bean and a bean of another name. -/
def exMixedDoc : Value := exDoc [exJVMGood, exFSActive, exOtherBean]

/-- The response that carries `exMixedDoc`. -/
def exMixedResp : Response :=
  { StatusCode := 200, Body := { data := Payload.valid exMixedDoc, err := none } }

/-- A document with a JVM bean, a filesystem bean without `tag.HAState` and another JVM
bean. -/
def exNoHADoc : Value := exDoc [exJVMGood, exFSNoHA, exJVMGood]

/-- The response that carries `exNoHADoc`. -/
def exNoHAResp : Response :=
  { StatusCode := 200, Body := { data := Payload.valid exNoHADoc, err := none } }

/-! ## Sequencing of runs -/

theorem Trace.andThen_skip (a : Trace) : a.andThen Trace.skip = a := by
  obtain ⟨sent, panic⟩ := a
  cases panic <;> simp [Trace.andThen, Trace.skip]

theorem Trace.skip_andThen (a : Trace) : Trace.skip.andThen a = a := by
  simp [Trace.andThen, Trace.skip]

theorem Trace.andThen_assoc (a b d : Trace) :
    (a.andThen b).andThen d = a.andThen (b.andThen d) := by
  obtain ⟨sa, pa⟩ := a
  obtain ⟨sb, pb⟩ := b
  cases pa <;> cases pb <;> simp [Trace.andThen]

theorem Trace.andThen_of_ok (a b : Trace) (h : a.panic = none) :
    a.andThen b = { sent := a.sent ++ b.sent, panic := b.panic } := by
  obtain ⟨sa, pa⟩ := a
  simp only at h
  subst h
  simp [Trace.andThen]

theorem Trace.block_append (l₁ l₂ : List Trace) :
    Trace.block (l₁ ++ l₂) = (Trace.block l₁).andThen (Trace.block l₂) := by
  induction l₁ with
  | nil => simp [Trace.block, Trace.skip_andThen]
  | cons s rest ih => simp [Trace.block, ih, Trace.andThen_assoc]

theorem collectBeans_append (c : Consts) (e : NameNodeExporter) (l₁ l₂ : List Bean) :
    collectBeans c e (l₁ ++ l₂) = (collectBeans c e l₁).andThen (collectBeans c e l₂) := by
  induction l₁ with
  | nil => simp [collectBeans, Trace.skip_andThen]
  | cons b rest ih => simp [collectBeans, ih, Trace.andThen_assoc]

/-! ## Single statements -/

theorem sendGauge_ok (desc : Desc) (x : Float64) (a b : String)
    (herr : desc.err = none) (hlen : desc.variableLabels.length = 2) :
    sendGauge desc (.ok x) [a, b]
      = { sent := [{ desc := desc, valType := ValueType.GaugeValue, val := x,
                     labelValues := [a, b] }], panic := none } := by
  simp [sendGauge, MustNewConstMetric, herr, hlen]

theorem char_eq_iff (a b : Char) : a = b ↔ a.toNat = b.toNat := by
  constructor
  · intro h
    rw [h]
  · intro h
    rw [← Char.ofNat_toNat a, ← Char.ofNat_toNat b, h]

theorem capitalSmallPairs_iff (a b : Char) :
    (a, b) ∈ capitalSmallPairs ↔
      (65 ≤ a.toNat ∧ a.toNat ≤ 90 ∧ b.toNat = a.toNat + 32) ∨
      (a.toNat = 0x130 ∧ b.toNat = 105) ∨ (a.toNat = 0x212A ∧ b.toNat = 107) := by
  constructor
  · intro h
    simp only [capitalSmallPairs, List.mem_cons, Prod.mk.injEq, List.not_mem_nil, or_false] at h
    casesm* _ ∨ _ <;> (rename_i h2; obtain ⟨rfl, rfl⟩ := h2; decide)
  · intro h
    have ha := Char.ofNat_toNat a
    have hb := Char.ofNat_toNat b
    rw [← ha, ← hb]
    generalize a.toNat = n at h
    generalize b.toNat = m at h
    rcases h with ⟨h1, h2, rfl⟩ | ⟨rfl, rfl⟩ | ⟨rfl, rfl⟩
    · interval_cases n <;> decide
    · decide
    · decide

theorem toLower_toNat (a : Char) :
    a.toLower.toNat = if 65 ≤ a.toNat ∧ a.toNat ≤ 90 then a.toNat + 32 else a.toNat := by
  unfold Char.toLower
  by_cases h : 65 ≤ a.toNat ∧ a.toNat ≤ 90
  · simp only [ge_iff_le, h, and_self, if_true]
    obtain ⟨h1, h2⟩ := h
    generalize a.toNat = n at h1 h2
    interval_cases n <;> rfl
  · simp only [ge_iff_le, h, if_false]

theorem unicodeToLower_toNat (a : Char) :
    (unicodeToLower a).toNat =
      if a.toNat = 0x130 then 105 else if a.toNat = 0x212A then 107
      else if 65 ≤ a.toNat ∧ a.toNat ≤ 90 then a.toNat + 32 else a.toNat := by
  unfold unicodeToLower
  have h1 : a = Char.ofNat 0x130 ↔ a.toNat = 0x130 := char_eq_iff a _
  have h2 : a = Char.ofNat 0x212A ↔ a.toNat = 0x212A := char_eq_iff a _
  by_cases c1 : a.toNat = 0x130
  · rw [if_pos (h1.2 c1), if_pos c1]
    rfl
  · rw [if_neg (fun h => c1 (h1.1 h)), if_neg c1]
    by_cases c2 : a.toNat = 0x212A
    · rw [if_pos (h2.2 c2), if_pos c2]
      rfl
    · rw [if_neg (fun h => c2 (h2.1 h)), if_neg c2]
      exact toLower_toNat a

theorem unicodeToLower_eq_iff (a b : Char) (hb : 97 ≤ b.toNat ∧ b.toNat ≤ 122) :
    unicodeToLower a = b ↔ sameLetter a b = true := by
  simp only [sameLetter, Bool.or_eq_true, decide_eq_true_eq, List.contains_iff_exists_mem_beq,
    beq_iff_eq, exists_eq_right', capitalSmallPairs_iff, char_eq_iff (unicodeToLower a) b,
    unicodeToLower_toNat, char_eq_iff a b]
  split_ifs <;> omega

theorem map_unicodeToLower_eq_iff (as bs : List Char)
    (hbs : ∀ b ∈ bs, 97 ≤ b.toNat ∧ b.toNat ≤ 122) :
    as.map unicodeToLower = bs ↔ equalIgnoringCase as bs = true := by
  induction as generalizing bs with
  | nil => cases bs <;> simp [equalIgnoringCase]
  | cons a rest ih =>
    cases bs with
    | nil => simp [equalIgnoringCase]
    | cons b bs =>
      have hb := hbs b (by simp)
      have hrest := ih bs (fun x hx => hbs x (by simp [hx]))
      simp only [List.map_cons, List.cons.injEq, equalIgnoringCase, Bool.and_eq_true,
        unicodeToLower_eq_iff a b hb, hrest]

theorem stringsToLower_eq_iff (s tok : String)
    (htok : ∀ b ∈ tok.data, 97 ≤ b.toNat ∧ b.toNat ≤ 122) :
    stringsToLower s = tok ↔ EqualsIgnoreCase s tok := by
  unfold stringsToLower EqualsIgnoreCase
  rw [← map_unicodeToLower_eq_iff _ _ htok]
  constructor
  · intro h
    rw [← h]
  · intro h
    rw [h]

theorem switchHAState_ok (e : NameNodeExporter) (DataMap : Bean) (s : String)
    (herr : e.HAState.err = none) (hlen : e.HAState.variableLabels.length = 2)
    (hs : mapIndex DataMap "tag.HAState" = Value.string s) :
    switchHAState e DataMap
      = { sent := [{ desc := e.HAState, valType := ValueType.GaugeValue,
                     val := specHAStateCode s, labelValues := [e.cluster, e.Hostname] }],
          panic := none } := by
  have h1 := stringsToLower_eq_iff s "stopping" (by decide)
  have h2 := stringsToLower_eq_iff s "active" (by decide)
  have h3 := stringsToLower_eq_iff s "initializing" (by decide)
  have h4 := stringsToLower_eq_iff s "standby" (by decide)
  simp only [switchHAState, hs, assertString, specHAStateCode, h1, h2, h3, h4]
  split_ifs <;> exact sendGauge_ok _ _ _ _ herr hlen

theorem Read.run_ok (e : NameNodeExporter) (DataMap : Bean) (r : Read)
    (herr : (r.desc e).err = none) (hlen : (r.desc e).variableLabels.length = 2)
    (hty : r.WellTyped DataMap = true) :
    r.run e DataMap = { sent := [r.sample e DataMap], panic := none } := by
  cases r with
  | gauge desc field =>
    simp only [Read.WellTyped] at hty
    simp only [Read.run, Read.sample, Read.desc, Read.value]
    cases hv : mapIndex DataMap field <;> simp [hv, Value.isFloat64] at hty
    simp only [assertFloat64, Value.toFloat64]
    exact sendGauge_ok _ _ _ _ herr hlen
  | haState =>
    simp only [Read.WellTyped] at hty
    simp only [Read.run, Read.sample, Read.desc, Read.value]
    cases hv : mapIndex DataMap "tag.HAState" <;> simp [hv, Value.isString] at hty
    simp only [Value.toStr]
    exact switchHAState_ok e DataMap _ herr hlen hv

theorem Read.run_fail (e : NameNodeExporter) (DataMap : Bean) (r : Read)
    (hty : r.WellTyped DataMap = false) :
    r.run e DataMap = { sent := [], panic := some (r.panicOf DataMap) } := by
  cases r with
  | gauge desc field =>
    simp only [Read.WellTyped] at hty
    simp only [Read.run, Read.panicOf, Read.field, Read.wanted]
    cases hv : mapIndex DataMap field <;>
      simp [hv, Value.isFloat64] at hty <;>
      simp [assertFloat64, sendGauge]
  | haState =>
    simp only [Read.WellTyped] at hty
    simp only [Read.run, Read.panicOf, Read.field, Read.wanted, switchHAState]
    cases hv : mapIndex DataMap "tag.HAState" <;>
      simp [hv, Value.isString] at hty <;>
      simp [assertString]

/-! ## Blocks of statements -/

theorem reads_block_ok (e : NameNodeExporter) (DataMap : Bean) (l : List Read)
    (hdesc : ∀ r ∈ l, (r.desc e).err = none ∧ (r.desc e).variableLabels.length = 2)
    (hty : ∀ r ∈ l, r.WellTyped DataMap = true) :
    Trace.block (l.map (Read.run e DataMap))
      = { sent := l.map (Read.sample e DataMap), panic := none } := by
  induction l with
  | nil => rfl
  | cons r rest ih =>
    have hr := Read.run_ok e DataMap r (hdesc r (by simp)).1 (hdesc r (by simp)).2
      (hty r (by simp))
    have hrest := ih (fun r hr => hdesc r (by simp [hr])) (fun r hr => hty r (by simp [hr]))
    simp [Trace.block, hr, hrest, Trace.andThen]

theorem reads_block_fail (e : NameNodeExporter) (DataMap : Bean) (before after : List Read)
    (r : Read)
    (hdesc : ∀ r ∈ before, (r.desc e).err = none ∧ (r.desc e).variableLabels.length = 2)
    (hty : ∀ r ∈ before, r.WellTyped DataMap = true)
    (hbad : r.WellTyped DataMap = false) :
    Trace.block ((before ++ r :: after).map (Read.run e DataMap))
      = { sent := before.map (Read.sample e DataMap), panic := some (r.panicOf DataMap) } := by
  rw [List.map_append, Trace.block_append, reads_block_ok e DataMap before hdesc hty]
  simp [Trace.block, Read.run_fail e DataMap r hbad, Trace.andThen]

theorem Selector.block_eq_reads (e : NameNodeExporter) (DataMap : Bean) (sel : Selector) :
    sel.block e DataMap = Trace.block ((sel.reads e).map (Read.run e DataMap)) := by
  cases sel <;> rfl

theorem collectBean_of_matches (c : Consts) (e : NameNodeExporter) (DataMap : Bean)
    (sel : Selector) (hsel : sel.matches c DataMap = true)
    (hother : sel.other.matches c DataMap = false) :
    collectBean c e DataMap = sel.block e DataMap := by
  cases sel <;>
    simp_all [collectBean, Selector.matches, Selector.other, Selector.name, Selector.block,
      Trace.andThen_skip, Trace.skip_andThen]

theorem collectBean_of_no_match (c : Consts) (e : NameNodeExporter) (DataMap : Bean)
    (hfs : Selector.fs.matches c DataMap = false)
    (hjvm : Selector.jvm.matches c DataMap = false) :
    collectBean c e DataMap = Trace.skip := by
  simp_all [collectBean, Selector.matches, Selector.name, Trace.skip_andThen]

/-! ## The exporter built by `NewNameNodeExporter` -/

theorem new_labels_length (c : Consts) (check : DescCheck) (opt : NameNodeExportOpt) :
    ∀ d ∈ declaredDescs (NewNameNodeExporter c check opt), d.variableLabels.length = 2 := by
  simp [declaredDescs, NewNameNodeExporter, NewDesc, NameNodeLabel]

theorem reads_desc_mem (e : NameNodeExporter) (sel : Selector) :
    ∀ r ∈ sel.reads e, r.desc e ∈ declaredDescs e := by
  cases sel <;> simp [Selector.reads, Read.desc, declaredDescs]

theorem fs_wellTyped_iff (e : NameNodeExporter) (DataMap : Bean) :
    (∀ r ∈ Selector.fs.reads e, r.WellTyped DataMap = true) ↔
      ((∀ F ∈ Selector.fs.fields, (mapIndex DataMap F).isFloat64 = true) ∧
        (mapIndex DataMap "tag.HAState").isString = true) := by
  simp only [Selector.reads, Selector.fields, List.forall_mem_cons, Read.WellTyped,
    List.not_mem_nil, false_imp_iff, implies_true, and_true, and_assoc]

theorem jvm_wellTyped_iff (e : NameNodeExporter) (DataMap : Bean) :
    (∀ r ∈ Selector.jvm.reads e, r.WellTyped DataMap = true) ↔
      (∀ F ∈ Selector.jvm.fields, (mapIndex DataMap F).isFloat64 = true) := by
  simp only [Selector.reads, Selector.fields, List.forall_mem_cons, Read.WellTyped,
    List.not_mem_nil, false_imp_iff, implies_true, and_true, and_assoc]

theorem block_ok_of_wellTyped (c : Consts) (check : DescCheck) (opt : NameNodeExportOpt)
    (sel : Selector) (DataMap : Bean)
    (hacc : Accepted (NewNameNodeExporter c check opt))
    (hty : ∀ r ∈ sel.reads (NewNameNodeExporter c check opt), r.WellTyped DataMap = true) :
    sel.block (NewNameNodeExporter c check opt) DataMap
      = { sent := (sel.reads (NewNameNodeExporter c check opt)).map
            (Read.sample (NewNameNodeExporter c check opt) DataMap),
          panic := none } := by
  rw [Selector.block_eq_reads]
  refine reads_block_ok _ DataMap _ (fun r hr => ⟨?_, ?_⟩) hty
  · exact hacc _ (reads_desc_mem _ sel r hr)
  · exact new_labels_length c check opt _ (reads_desc_mem _ sel r hr)

theorem Collect_of_resp (c : Consts) (httpGet : String → GetResult) (e : NameNodeExporter)
    (resp : Response) (hresp : (httpGet e.JmxUrl).resp = some resp) :
    Collect c httpGet e
      = { stdout := printErr (httpGet e.JmxUrl).err ++ printErr resp.Body.err
            ++ printErr (jsonUnmarshal resp.Body.data).2,
          ch := (collectBeans c e (jsonUnmarshal resp.Body.data).1.Beans).sent,
          panic := (collectBeans c e (jsonUnmarshal resp.Body.data).1.Beans).panic } := by
  simp [Collect, hresp]

theorem collectBeans_split_ok (c : Consts) (e : NameNodeExporter) (pre post : List Bean)
    (DataMap : Bean) (sent : List Metric)
    (hpre : (collectBeans c e pre).panic = none)
    (hbean : collectBean c e DataMap = { sent := sent, panic := none }) :
    collectBeans c e (pre ++ DataMap :: post)
      = { sent := (collectBeans c e pre).sent ++ sent ++ (collectBeans c e post).sent,
          panic := (collectBeans c e post).panic } := by
  rw [collectBeans_append, Trace.andThen_of_ok _ _ hpre]
  simp [collectBeans, hbean, Trace.andThen]

theorem collectBeans_split_panic (c : Consts) (e : NameNodeExporter) (pre post : List Bean)
    (DataMap : Bean) (sent : List Metric) (p : Panic)
    (hpre : (collectBeans c e pre).panic = none)
    (hbean : collectBean c e DataMap = { sent := sent, panic := some p }) :
    collectBeans c e (pre ++ DataMap :: post)
      = { sent := (collectBeans c e pre).sent ++ sent, panic := some p } := by
  rw [collectBeans_append, Trace.andThen_of_ok _ _ hpre]
  simp [collectBeans, hbean, Trace.andThen]

/-! ## C3: a field that is absent or has another type -/

/-- C3, the claim as stated fails: a JVM bean with `GcCount` a string and its other six
fields float64 gets no sample at all, `Collect` panics, and the well-typed filesystem bean
after it gets no sample either. -/
theorem C3_counterexample :
    Accepted exExporter ∧
    (mapIndex exJVMBad "name").eqString exConsts.NNJVMMetrics = true ∧
    (Selector.jvm.fields.filter (fun F => (mapIndex exJVMBad F).isFloat64)).length = 6 ∧
    (Collect exConsts (exGet 200 (exDoc [exJVMBad, exFSActive])) exExporter).ch = [] ∧
    (Collect exConsts (exGet 200 (exDoc [exJVMBad, exFSActive])) exExporter).ch.length ≠ 6 ∧
    (Collect exConsts (exGet 200 (exDoc [exJVMBad, exFSActive])) exExporter).panic
      = some (Panic.interfaceConversion "string" "float64") := by
  decide

/-- C3, amended: in a bean that matches one selector, let `r` be the first statement of the
block, in the order `Collect` runs them, whose field is absent or has another type than the one
asserted.  Then `Collect` panics at `r` with the failed interface conversion: the samples of
the beans before and of the statements before `r` are sent, and nothing is sent for `r`, for
the statements after it or for the beans after this one. -/
theorem C3_field_failure_aborts (c : Consts) (check : DescCheck) (opt : NameNodeExportOpt)
    (httpGet : String → GetResult) (resp : Response) (sel : Selector)
    (pre post : List Bean) (DataMap : Bean) (before after : List Read) (r : Read)
    (hacc : Accepted (NewNameNodeExporter c check opt))
    (hresp : (httpGet opt.JmxUrl).resp = some resp)
    (hdoc : (jsonUnmarshal resp.Body.data).1.Beans = pre ++ DataMap :: post)
    (hpre : (collectBeans c (NewNameNodeExporter c check opt) pre).panic = none)
    (hsel : sel.matches c DataMap = true)
    (hother : sel.other.matches c DataMap = false)
    (hsplit : sel.reads (NewNameNodeExporter c check opt) = before ++ r :: after)
    (hbefore : ∀ q ∈ before, q.WellTyped DataMap = true)
    (hbad : r.WellTyped DataMap = false) :
    (Collect c httpGet (NewNameNodeExporter c check opt)).ch
      = (collectBeans c (NewNameNodeExporter c check opt) pre).sent
          ++ before.map (Read.sample (NewNameNodeExporter c check opt) DataMap) ∧
    (Collect c httpGet (NewNameNodeExporter c check opt)).panic
      = some (Panic.interfaceConversion (mapIndex DataMap r.field).typeName r.wanted) := by
  have hmem : ∀ q ∈ before, q ∈ sel.reads (NewNameNodeExporter c check opt) := by
    intro q hq
    rw [hsplit]
    exact List.mem_append_left _ hq
  have hblock : collectBean c (NewNameNodeExporter c check opt) DataMap
      = { sent := before.map (Read.sample (NewNameNodeExporter c check opt) DataMap),
          panic := some (r.panicOf DataMap) } := by
    rw [collectBean_of_matches c _ DataMap sel hsel hother, Selector.block_eq_reads, hsplit]
    refine reads_block_fail _ DataMap before after r (fun q hq => ⟨?_, ?_⟩) hbefore hbad
    · exact hacc _ (reads_desc_mem _ sel q (hmem q hq))
    · exact new_labels_length c check opt _ (reads_desc_mem _ sel q (hmem q hq))
  have hurl : (NewNameNodeExporter c check opt).JmxUrl = opt.JmxUrl := rfl
  rw [Collect_of_resp c httpGet _ resp (by rw [hurl]; exact hresp), hdoc,
    collectBeans_split_panic c _ pre post DataMap _ _ hpre hblock]
  exact ⟨rfl, rfl⟩

/-- The amended C3 on the exporter of `main`: a JVM bean without `MemHeapMaxM`, six of its
seven fields float64, gets the four samples of the fields read before `MemHeapMaxM`. -/
theorem C3_field_failure_aborts_witness :
    (Accepted (NewNameNodeExporter exConsts exCheck mainOpt) ∧
      (collectBeans exConsts (NewNameNodeExporter exConsts exCheck mainOpt) [exFSActive]).panic
        = none ∧
      Selector.jvm.matches exConsts exJVMNoHeapMax = true ∧
      Selector.jvm.other.matches exConsts exJVMNoHeapMax = false ∧
      (∀ q ∈ (Selector.jvm.reads (NewNameNodeExporter exConsts exCheck mainOpt)).take 4,
        q.WellTyped exJVMNoHeapMax = true) ∧
      (Read.gauge (NewNameNodeExporter exConsts exCheck mainOpt).MemHeapMaxM
        "MemHeapMaxM").WellTyped exJVMNoHeapMax = false) ∧
    ((Collect exConsts (exGet 200 (exDoc [exFSActive, exJVMNoHeapMax, exJVMGood]))
        (NewNameNodeExporter exConsts exCheck mainOpt)).ch
      = (collectBeans exConsts (NewNameNodeExporter exConsts exCheck mainOpt)
            [exFSActive]).sent
          ++ ((Selector.jvm.reads (NewNameNodeExporter exConsts exCheck mainOpt)).take 4).map
              (Read.sample (NewNameNodeExporter exConsts exCheck mainOpt) exJVMNoHeapMax) ∧
    (Collect exConsts (exGet 200 (exDoc [exFSActive, exJVMNoHeapMax, exJVMGood]))
        (NewNameNodeExporter exConsts exCheck mainOpt)).panic
      = some (Panic.interfaceConversion
          (mapIndex exJVMNoHeapMax
            (Read.gauge (NewNameNodeExporter exConsts exCheck mainOpt).MemHeapMaxM
              "MemHeapMaxM").field).typeName
          (Read.gauge (NewNameNodeExporter exConsts exCheck mainOpt).MemHeapMaxM
            "MemHeapMaxM").wanted)) :=
  ⟨⟨by decide, by decide, by decide, by decide, by decide, by decide⟩,
   C3_field_failure_aborts exConsts exCheck mainOpt
     (exGet 200 (exDoc [exFSActive, exJVMNoHeapMax, exJVMGood]))
     { StatusCode := 200,
       Body := { data := Payload.valid (exDoc [exFSActive, exJVMNoHeapMax, exJVMGood]),
                 err := none } }
     Selector.jvm [exFSActive] [exJVMGood] exJVMNoHeapMax
     ((Selector.jvm.reads (NewNameNodeExporter exConsts exCheck mainOpt)).take 4)
     ((Selector.jvm.reads (NewNameNodeExporter exConsts exCheck mainOpt)).drop 5)
     (Read.gauge (NewNameNodeExporter exConsts exCheck mainOpt).MemHeapMaxM "MemHeapMaxM")
     (by decide) rfl rfl (by decide) (by decide) (by decide) rfl (by decide) (by decide)⟩

/-! ## The status code of the response -/

theorem Collect_withStatus (c : Consts) (httpGet : String → GetResult) (e : NameNodeExporter)
    (code : Nat) :
    Collect c (fun url => (httpGet url).withStatus code) e = Collect c httpGet e := by
  unfold Collect GetResult.withStatus
  cases h : (httpGet e.JmxUrl).resp <;> simp [h]

/-! ## Names of descriptors -/

theorem string_append_right_inj (p a b : String) : p ++ a = p ++ b ↔ a = b := by
  constructor
  · intro h
    have h2 := congrArg String.data h
    simp only [String.data_append] at h2
    exact String.ext (List.append_cancel_left h2)
  · intro h
    rw [h]

theorem sendGauge_sent_desc (desc : Desc) (v : Except Panic Float64) (labels : List String) :
    ∀ m ∈ (sendGauge desc v labels).sent, m.desc = desc := by
  intro m hm
  unfold sendGauge MustNewConstMetric at hm
  cases v with
  | error p => simp at hm
  | ok x =>
    cases herr : desc.err with
    | some err => simp [herr] at hm
    | none =>
      by_cases hlen : labels.length = desc.variableLabels.length
      · simp [herr, hlen] at hm
        rw [hm]
      · simp [herr, hlen] at hm

theorem switchHAState_sent_desc (e : NameNodeExporter) (DataMap : Bean) :
    ∀ m ∈ (switchHAState e DataMap).sent, m.desc = e.HAState := by
  intro m hm
  unfold switchHAState at hm
  cases hv : assertString (mapIndex DataMap "tag.HAState") with
  | error p => simp [hv] at hm
  | ok s =>
    simp only [hv] at hm
    split_ifs at hm <;> exact sendGauge_sent_desc _ _ _ m hm

theorem Read.run_sent_desc (e : NameNodeExporter) (DataMap : Bean) (r : Read) :
    ∀ m ∈ (r.run e DataMap).sent, m.desc = r.desc e := by
  cases r with
  | gauge desc field => exact sendGauge_sent_desc _ _ _
  | haState => exact switchHAState_sent_desc e DataMap

theorem Trace.mem_andThen_sent (a b : Trace) (m : Metric) (hm : m ∈ (a.andThen b).sent) :
    m ∈ a.sent ∨ m ∈ b.sent := by
  obtain ⟨sa, pa⟩ := a
  cases pa with
  | none => simpa [Trace.andThen] using hm
  | some p => exact Or.inl (by simpa [Trace.andThen] using hm)

theorem Trace.mem_block_sent (l : List Trace) (m : Metric) (hm : m ∈ (Trace.block l).sent) :
    ∃ t ∈ l, m ∈ t.sent := by
  induction l with
  | nil => simp [Trace.block, Trace.skip] at hm
  | cons t rest ih =>
    rcases Trace.mem_andThen_sent _ _ m hm with h | h
    · exact ⟨t, by simp, h⟩
    · obtain ⟨t2, ht2, hm2⟩ := ih h
      exact ⟨t2, by simp [ht2], hm2⟩

theorem Selector.block_sent_desc (e : NameNodeExporter) (DataMap : Bean) (sel : Selector) :
    ∀ m ∈ (sel.block e DataMap).sent, m.desc ∈ sel.descs e := by
  intro m hm
  rw [Selector.block_eq_reads] at hm
  obtain ⟨t, ht, hmt⟩ := Trace.mem_block_sent _ m hm
  obtain ⟨r, hr, rfl⟩ := List.mem_map.1 ht
  rw [Read.run_sent_desc e DataMap r m hmt]
  exact List.mem_map.2 ⟨r, hr, rfl⟩

theorem descs_disjoint (c : Consts) (check : DescCheck) (opt : NameNodeExportOpt) (d : Desc)
    (hfs : d ∈ Selector.fs.descs (NewNameNodeExporter c check opt))
    (hjvm : d ∈ Selector.jvm.descs (NewNameNodeExporter c check opt)) : False := by
  have h1 : d.fqName ∈ (Selector.fs.fields ++ ["HAState"]).map
      (fun F => opt.PromNamespace ++ "_" ++ F) := by
    simp only [Selector.descs, Selector.reads, List.map_cons, List.map_nil, Read.desc,
      NewNameNodeExporter, NewDesc, List.mem_cons, List.not_mem_nil, or_false] at hfs
    rcases hfs with h | h | h | h | h | h | h | h | h | h | h | h | h | h | h | h | h <;>
      simp [h, Selector.fields]
  have h2 : d.fqName ∈ Selector.jvm.fields.map (fun F => opt.PromNamespace ++ "_" ++ F) := by
    simp only [Selector.descs, Selector.reads, List.map_cons, List.map_nil, Read.desc,
      NewNameNodeExporter, NewDesc, List.mem_cons, List.not_mem_nil, or_false] at hjvm
    rcases hjvm with h | h | h | h | h | h | h <;>
      simp [h, Selector.fields]
  obtain ⟨F, hF, hFn⟩ := List.mem_map.1 h1
  obtain ⟨G, hG, hGn⟩ := List.mem_map.1 h2
  have hFG : F = G := (string_append_right_inj _ F G).1 (hFn.trans hGn.symm)
  subst hFG
  revert hF hG
  generalize F = X
  intro hF hG
  have : ∀ Y ∈ Selector.fs.fields ++ ["HAState"], Y ∉ Selector.jvm.fields := by decide
  exact this X hF hG

/-! ## C5: sparse collection -/

theorem collectBean_of_absent (c : Consts) (e : NameNodeExporter) (DataMap : Bean)
    (sel : Selector) (habsent : sel.matches c DataMap = false) :
    collectBean c e DataMap
      = if sel.other.matches c DataMap = true then sel.other.block e DataMap
        else Trace.skip := by
  cases sel <;>
    simp_all [collectBean, Selector.matches, Selector.other, Selector.name, Selector.block,
      Trace.andThen_skip, Trace.skip_andThen]

theorem collectBeans_of_absent (c : Consts) (e : NameNodeExporter) (sel : Selector)
    (beans : List Bean) (habsent : ∀ b ∈ beans, sel.matches c b = false) :
    collectBeans c e beans
      = Trace.block ((beans.filter (fun b => sel.other.matches c b)).map
          (fun b => sel.other.block e b)) := by
  induction beans with
  | nil => rfl
  | cons b rest ih =>
    have hb := collectBean_of_absent c e b sel (habsent b (by simp))
    have hrest := ih (fun b hb => habsent b (by simp [hb]))
    by_cases hm : sel.other.matches c b = true
    · simp [collectBeans, hb, hrest, hm, Trace.block]
    · simp [collectBeans, hb, hrest, hm, Trace.skip_andThen]

theorem collectBeans_skip_bean (c : Consts) (e : NameNodeExporter) (pre post : List Bean)
    (b : Bean) (hfs : Selector.fs.matches c b = false) (hjvm : Selector.jvm.matches c b = false) :
    collectBeans c e (pre ++ b :: post) = collectBeans c e (pre ++ post) := by
  rw [collectBeans_append, collectBeans_append]
  simp [collectBeans, collectBean_of_no_match c e b hfs hjvm, Trace.skip_andThen]

/-- C5: when no bean of the document is named as a selector, `Collect` sends no sample on
any of the descriptors of that selector (17 for the filesystem selector, 7 for the JVM
selector); what it sends and how it ends is exactly the run of the other selector's block on
the beans named as the other selector, and it prints only the errors of the fetch, the read
and the parse, so nothing is raised for the absence.  A bean named as neither selector can
be removed from the document without changing the run, whatever its fields. -/
theorem C5_sparse_collection (c : Consts) (check : DescCheck) (opt : NameNodeExportOpt)
    (httpGet : String → GetResult) (resp : Response) (sel : Selector)
    (hresp : (httpGet opt.JmxUrl).resp = some resp)
    (habsent : ∀ b ∈ (jsonUnmarshal resp.Body.data).1.Beans, sel.matches c b = false) :
    (∀ m ∈ (Collect c httpGet (NewNameNodeExporter c check opt)).ch,
      m.desc ∉ sel.descs (NewNameNodeExporter c check opt)) ∧
    (Collect c httpGet (NewNameNodeExporter c check opt)).ch
      = (Trace.block (((jsonUnmarshal resp.Body.data).1.Beans.filter
          (fun b => sel.other.matches c b)).map
          (fun b => sel.other.block (NewNameNodeExporter c check opt) b))).sent ∧
    (Collect c httpGet (NewNameNodeExporter c check opt)).panic
      = (Trace.block (((jsonUnmarshal resp.Body.data).1.Beans.filter
          (fun b => sel.other.matches c b)).map
          (fun b => sel.other.block (NewNameNodeExporter c check opt) b))).panic ∧
    (Collect c httpGet (NewNameNodeExporter c check opt)).stdout
      = printErr (httpGet opt.JmxUrl).err ++ printErr resp.Body.err
          ++ printErr (jsonUnmarshal resp.Body.data).2 ∧
    (∀ (pre post : List Bean) (b : Bean),
      (mapIndex b "name").eqString c.NNFSMetrics = false →
      (mapIndex b "name").eqString c.NNJVMMetrics = false →
      collectBean c (NewNameNodeExporter c check opt) b = Trace.skip ∧
      collectBeans c (NewNameNodeExporter c check opt) (pre ++ b :: post)
        = collectBeans c (NewNameNodeExporter c check opt) (pre ++ post)) := by
  have hurl : (NewNameNodeExporter c check opt).JmxUrl = opt.JmxUrl := rfl
  have hrun := collectBeans_of_absent c (NewNameNodeExporter c check opt) sel _ habsent
  rw [Collect_of_resp c httpGet _ resp (by rw [hurl]; exact hresp), hrun, hurl]
  refine ⟨?_, rfl, rfl, rfl, ?_⟩
  · intro m hm hsel
    obtain ⟨t, ht, hmt⟩ := Trace.mem_block_sent _ m hm
    obtain ⟨b, _, rfl⟩ := List.mem_map.1 ht
    have hother := Selector.block_sent_desc (NewNameNodeExporter c check opt) b sel.other m hmt
    cases sel with
    | fs => exact descs_disjoint c check opt m.desc hsel hother
    | jvm => exact descs_disjoint c check opt m.desc hother hsel
  · intro pre post b hfs hjvm
    exact ⟨collectBean_of_no_match c _ b hfs hjvm, collectBeans_skip_bean c _ pre post b hfs hjvm⟩

/-- C5 on the exporter of `main`: a document with a JVM bean and a bean of another name, and
no filesystem bean. -/
theorem C5_sparse_collection_witness :
    ((exGet 200 exSparseDoc mainOpt.JmxUrl).resp = some exSparseResp ∧
      (∀ b ∈ (jsonUnmarshal exSparseResp.Body.data).1.Beans,
        Selector.fs.matches exConsts b = false)) ∧
    ((∀ m ∈ (Collect exConsts (exGet 200 exSparseDoc)
          (NewNameNodeExporter exConsts exCheck mainOpt)).ch,
        m.desc ∉ Selector.fs.descs (NewNameNodeExporter exConsts exCheck mainOpt)) ∧
      (Collect exConsts (exGet 200 exSparseDoc)
          (NewNameNodeExporter exConsts exCheck mainOpt)).ch
        = (Trace.block (((jsonUnmarshal exSparseResp.Body.data).1.Beans.filter
            (fun b => Selector.fs.other.matches exConsts b)).map
            (fun b => Selector.fs.other.block
              (NewNameNodeExporter exConsts exCheck mainOpt) b))).sent ∧
      (Collect exConsts (exGet 200 exSparseDoc)
          (NewNameNodeExporter exConsts exCheck mainOpt)).panic
        = (Trace.block (((jsonUnmarshal exSparseResp.Body.data).1.Beans.filter
            (fun b => Selector.fs.other.matches exConsts b)).map
            (fun b => Selector.fs.other.block
              (NewNameNodeExporter exConsts exCheck mainOpt) b))).panic ∧
      (Collect exConsts (exGet 200 exSparseDoc)
          (NewNameNodeExporter exConsts exCheck mainOpt)).stdout
        = printErr (exGet 200 exSparseDoc mainOpt.JmxUrl).err ++ printErr exSparseResp.Body.err
            ++ printErr (jsonUnmarshal exSparseResp.Body.data).2 ∧
      (∀ (pre post : List Bean) (b : Bean),
        (mapIndex b "name").eqString exConsts.NNFSMetrics = false →
        (mapIndex b "name").eqString exConsts.NNJVMMetrics = false →
        collectBean exConsts (NewNameNodeExporter exConsts exCheck mainOpt) b = Trace.skip ∧
        collectBeans exConsts (NewNameNodeExporter exConsts exCheck mainOpt) (pre ++ b :: post)
          = collectBeans exConsts (NewNameNodeExporter exConsts exCheck mainOpt)
              (pre ++ post))) :=
  ⟨⟨rfl, by decide⟩,
   C5_sparse_collection exConsts exCheck mainOpt (exGet 200 exSparseDoc) exSparseResp
     Selector.fs rfl (by decide)⟩

/-! ## C6: samples and fields -/

theorem filter_map_unique {α β γ : Type} [DecidableEq γ] (key : α → γ) (g : α → β)
    (keyOf : β → γ) (hk : ∀ a, keyOf (g a) = key a) (l : List α)
    (hnd : (l.map key).Nodup) (a : α) (ha : a ∈ l) :
    (l.map g).filter (fun m => decide (keyOf m = key a)) = [g a] := by
  induction l with
  | nil => simp at ha
  | cons b rest ih =>
    rw [List.map_cons, List.nodup_cons] at hnd
    obtain ⟨hb, hrest⟩ := hnd
    rcases List.mem_cons.1 ha with rfl | hmem
    · have hnone : (rest.map g).filter (fun m => decide (keyOf m = key a)) = [] := by
        rw [List.filter_eq_nil_iff]
        intro m hm
        obtain ⟨x, hx, rfl⟩ := List.mem_map.1 hm
        simp only [hk, decide_eq_true_eq]
        intro heq
        exact hb (List.mem_map.2 ⟨x, hx, heq⟩)
      simp [List.filter_cons, hk, hnone]
    · have hne : key b ≠ key a := by
        intro heq
        exact hb (List.mem_map.2 ⟨a, hmem, heq.symm⟩)
      simp [List.filter_cons, hk, hne, ih hrest hmem]

theorem names_nodup (ns : String) (l : List String) (h : l.Nodup) :
    (l.map (fun F => ns ++ "_" ++ F)).Nodup :=
  List.Nodup.map (fun a b hab => (string_append_right_inj _ a b).1 hab) h

theorem reads_names (c : Consts) (check : DescCheck) (opt : NameNodeExportOpt)
    (sel : Selector) :
    (sel.reads (NewNameNodeExporter c check opt)).map
        (fun r => (r.desc (NewNameNodeExporter c check opt)).fqName)
      = sel.stats.map (fun F => opt.PromNamespace ++ "_" ++ F) := by
  cases sel <;> rfl

theorem declared_names (c : Consts) (check : DescCheck) (opt : NameNodeExportOpt) :
    (declaredDescs (NewNameNodeExporter c check opt)).map (fun d => d.fqName)
      = declaredStats.map (fun F => opt.PromNamespace ++ "_" ++ F) := by
  rfl

theorem reads_of_field (e : NameNodeExporter) (sel : Selector) (F : String)
    (hF : F ∈ sel.fields) : ∃ d, Read.gauge d F ∈ sel.reads e := by
  cases sel with
  | fs =>
    simp only [Selector.fields, List.mem_cons, List.not_mem_nil, or_false] at hF
    simp only [Selector.reads]
    rcases hF with h | h | h | h | h | h | h | h | h | h | h | h | h | h | h | h <;>
      subst h <;>
      exact ⟨_, by repeat (first | exact List.Mem.head _ | apply List.Mem.tail)⟩
  | jvm =>
    simp only [Selector.fields, List.mem_cons, List.not_mem_nil, or_false] at hF
    simp only [Selector.reads]
    rcases hF with h | h | h | h | h | h | h <;>
      subst h <;>
      exact ⟨_, by repeat (first | exact List.Mem.head _ | apply List.Mem.tail)⟩

theorem reads_gauge_name (c : Consts) (check : DescCheck) (opt : NameNodeExportOpt)
    (sel : Selector) (d : Desc) (F : String)
    (h : Read.gauge d F ∈ sel.reads (NewNameNodeExporter c check opt)) :
    d.fqName = opt.PromNamespace ++ "_" ++ F := by
  cases sel <;> simp [Selector.reads] at h <;> casesm* _ ∨ _ <;>
    (rename_i h2; obtain ⟨rfl, rfl⟩ := h2; rfl)

theorem wellTyped_of_fields (e : NameNodeExporter) (sel : Selector) (DataMap : Bean)
    (hnum : ∀ G ∈ sel.fields, (mapIndex DataMap G).isFloat64 = true)
    (hha : sel = Selector.fs → (mapIndex DataMap "tag.HAState").isString = true) :
    ∀ r ∈ sel.reads e, r.WellTyped DataMap = true := by
  cases sel with
  | fs => exact (fs_wellTyped_iff e DataMap).2 ⟨hnum, hha rfl⟩
  | jvm => exact (jvm_wellTyped_iff e DataMap).2 hnum

theorem collectBean_ok (c : Consts) (check : DescCheck) (opt : NameNodeExportOpt)
    (sel : Selector) (DataMap : Bean)
    (hacc : Accepted (NewNameNodeExporter c check opt))
    (hsel : sel.matches c DataMap = true)
    (hother : sel.other.matches c DataMap = false)
    (hnum : ∀ G ∈ sel.fields, (mapIndex DataMap G).isFloat64 = true)
    (hha : sel = Selector.fs → (mapIndex DataMap "tag.HAState").isString = true) :
    collectBean c (NewNameNodeExporter c check opt) DataMap
      = { sent := (sel.reads (NewNameNodeExporter c check opt)).map
            (Read.sample (NewNameNodeExporter c check opt) DataMap),
          panic := none } := by
  rw [collectBean_of_matches c _ DataMap sel hsel hother]
  exact block_ok_of_wellTyped c check opt sel DataMap hacc
    (wellTyped_of_fields _ sel DataMap hnum hha)

/-- C6: for a bean named as one selector whose required fields are all of the asserted type,
and for each numeric field `F` the block of that selector reads whose value in the bean is
`x`: the exporter declares exactly one descriptor named `PromNamespace_F`, and among the
samples `Collect` sends for the bean exactly one has a descriptor of that name; it is a gauge
on that descriptor with value `x` and the labels of the exporter. -/
theorem C6_sample_field_correspondence (c : Consts) (check : DescCheck)
    (opt : NameNodeExportOpt) (sel : Selector) (DataMap : Bean) (F : String) (x : Float64)
    (hacc : Accepted (NewNameNodeExporter c check opt))
    (hsel : sel.matches c DataMap = true)
    (hother : sel.other.matches c DataMap = false)
    (hnum : ∀ G ∈ sel.fields, (mapIndex DataMap G).isFloat64 = true)
    (hha : sel = Selector.fs → (mapIndex DataMap "tag.HAState").isString = true)
    (hF : F ∈ sel.fields) (hx : mapIndex DataMap F = Value.float64 x) :
    ∃ d ∈ declaredDescs (NewNameNodeExporter c check opt),
      d.fqName = opt.PromNamespace ++ "_" ++ F ∧
      (∀ d2 ∈ declaredDescs (NewNameNodeExporter c check opt),
        d2.fqName = opt.PromNamespace ++ "_" ++ F → d2 = d) ∧
      (collectBean c (NewNameNodeExporter c check opt) DataMap).sent.filter
          (fun m => decide (m.desc.fqName = opt.PromNamespace ++ "_" ++ F))
        = [{ desc := d, valType := ValueType.GaugeValue, val := x,
             labelValues := [opt.cluster, opt.Hostname] }] := by
  obtain ⟨d, hr⟩ := reads_of_field (NewNameNodeExporter c check opt) sel F hF
  have hdmem : d ∈ declaredDescs (NewNameNodeExporter c check opt) :=
    reads_desc_mem _ sel _ hr
  have hname : d.fqName = opt.PromNamespace ++ "_" ++ F := reads_gauge_name c check opt sel d F hr
  refine ⟨d, hdmem, hname, ?_, ?_⟩
  · intro d2 hd2 hname2
    have hnd : ((declaredDescs (NewNameNodeExporter c check opt)).map
        (fun d => d.fqName)).Nodup := by
      rw [declared_names]
      exact names_nodup _ _ (by decide)
    exact List.inj_on_of_nodup_map hnd hd2 hdmem (hname2.trans hname.symm)
  · rw [collectBean_ok c check opt sel DataMap hacc hsel hother hnum hha]
    have hnd : ((sel.reads (NewNameNodeExporter c check opt)).map
        (fun r => (r.desc (NewNameNodeExporter c check opt)).fqName)).Nodup := by
      rw [reads_names]
      exact names_nodup _ _ (by cases sel <;> decide)
    have hfilter := filter_map_unique
      (fun r => (Read.desc (NewNameNodeExporter c check opt) r).fqName)
      (Read.sample (NewNameNodeExporter c check opt) DataMap)
      (fun m => m.desc.fqName) (fun _ => rfl) _ hnd _ hr
    simp only [Read.desc, hname] at hfilter
    rw [hfilter]
    simp [Read.sample, Read.desc, Read.value, hx, Value.toFloat64, NewNameNodeExporter]

/-- C6 on the exporter of `main`: the field `CapacityUsedNonDFS` of a filesystem bean. -/
theorem C6_sample_field_correspondence_witness :
    (Accepted (NewNameNodeExporter exConsts exCheck mainOpt) ∧
      Selector.fs.matches exConsts exFSActive = true ∧
      Selector.fs.other.matches exConsts exFSActive = false ∧
      (∀ G ∈ Selector.fs.fields, (mapIndex exFSActive G).isFloat64 = true) ∧
      (mapIndex exFSActive "tag.HAState").isString = true ∧
      "CapacityUsedNonDFS" ∈ Selector.fs.fields ∧
      mapIndex exFSActive "CapacityUsedNonDFS" = Value.float64 500) ∧
    ∃ d ∈ declaredDescs (NewNameNodeExporter exConsts exCheck mainOpt),
      d.fqName = mainOpt.PromNamespace ++ "_" ++ "CapacityUsedNonDFS" ∧
      (∀ d2 ∈ declaredDescs (NewNameNodeExporter exConsts exCheck mainOpt),
        d2.fqName = mainOpt.PromNamespace ++ "_" ++ "CapacityUsedNonDFS" → d2 = d) ∧
      (collectBean exConsts (NewNameNodeExporter exConsts exCheck mainOpt) exFSActive).sent.filter
          (fun m => decide (m.desc.fqName = mainOpt.PromNamespace ++ "_" ++ "CapacityUsedNonDFS"))
        = [{ desc := d, valType := ValueType.GaugeValue, val := 500,
             labelValues := [mainOpt.cluster, mainOpt.Hostname] }] :=
  ⟨⟨by decide, by decide, by decide, by decide, by decide, by decide, rfl⟩,
   C6_sample_field_correspondence exConsts exCheck mainOpt Selector.fs exFSActive
     "CapacityUsedNonDFS" 500 (by decide) (by decide) (by decide) (by decide)
     (fun _ => by decide) (by decide) rfl⟩

/-! ## C7: one sample for every declared descriptor -/

/-- C7, the code at the failing input: for a document with one well-typed filesystem bean
(whose field `ExpiredHeartbeats` is 7) and one well-typed JVM bean, `Collect` returns normally
after 24 samples, and none of them is on the descriptor `ExpiredHeartbeats`, which the
exporter declares and `Describe` announces. -/
theorem C7_expiredHeartbeats_gets_no_sample :
    Accepted exExporter ∧
    exExporter.ExpiredHeartbeats ∈ declaredDescs exExporter ∧
    exExporter.ExpiredHeartbeats ∈ Describe exExporter ∧
    (mapIndex exFSActive "ExpiredHeartbeats").isFloat64 = true ∧
    (Collect exConsts (exGet 200 (exDoc [exFSActive, exJVMGood])) exExporter).panic = none ∧
    (Collect exConsts (exGet 200 (exDoc [exFSActive, exJVMGood])) exExporter).ch.length = 24 ∧
    ((Collect exConsts (exGet 200 (exDoc [exFSActive, exJVMGood])) exExporter).ch.filter
      (fun m => decide (m.desc = exExporter.ExpiredHeartbeats))).length = 0 := by
  decide

/-! ## C8: the order of the samples -/

theorem fs_descs_sublist (e : NameNodeExporter) :
    (Selector.fs.descs e).Sublist (declaredDescs e) := by
  simp only [Selector.descs, Selector.reads, List.map, Read.desc, declaredDescs]
  repeat (first | exact List.Sublist.slnil | apply List.Sublist.cons₂ | apply List.Sublist.cons)

theorem declaredDescs_nodup (c : Consts) (check : DescCheck) (opt : NameNodeExportOpt) :
    (declaredDescs (NewNameNodeExporter c check opt)).Nodup := by
  have hnd : ((declaredDescs (NewNameNodeExporter c check opt)).map
      (fun d => d.fqName)).Nodup := by
    rw [declared_names]
    exact names_nodup _ _ (by decide)
  exact List.Nodup.of_map _ hnd

/-- C8, the claim as stated fails: in the exporter the descriptor `MemNonHeapMaxM` is
declared before `MemMaxM`, and for a well-typed JVM bean the sample of `MemMaxM` is sent before
the sample of `MemNonHeapMaxM`. -/
theorem C8_counterexample :
    Accepted exExporter ∧
    Selector.jvm.matches exConsts exJVMGood = true ∧
    (∀ F ∈ Selector.jvm.fields, (mapIndex exJVMGood F).isFloat64 = true) ∧
    (declaredDescs exExporter).indexOf exExporter.MemNonHeapMaxM
      < (declaredDescs exExporter).indexOf exExporter.MemMaxM ∧
    samplePos exExporter.MemMaxM
        (Collect exConsts (exGet 200 (exDoc [exJVMGood])) exExporter).ch
      < samplePos exExporter.MemNonHeapMaxM
          (Collect exConsts (exGet 200 (exDoc [exJVMGood])) exExporter).ch ∧
    samplePos exExporter.MemNonHeapMaxM
        (Collect exConsts (exGet 200 (exDoc [exJVMGood])) exExporter).ch
      < (Collect exConsts (exGet 200 (exDoc [exJVMGood])) exExporter).ch.length := by
  decide

/-- C8, amended: for a bean named as one selector whose required fields are all of the
asserted type, the descriptors of the samples sent for the bean are, in order, those of the
statements of the selector's block.  For the filesystem block this is the order of the
declarations: the 17 descriptors form a sublist of the declared descriptors, which are
pairwise different.  For the JVM block it is `GcCount`, `GcTimeMillis` in the order of their
declarations, followed by the five memory descriptors in the reverse of that order. -/
theorem C8_emission_order (c : Consts) (check : DescCheck) (opt : NameNodeExportOpt)
    (sel : Selector) (DataMap : Bean)
    (hacc : Accepted (NewNameNodeExporter c check opt))
    (hsel : sel.matches c DataMap = true)
    (hother : sel.other.matches c DataMap = false)
    (hnum : ∀ G ∈ sel.fields, (mapIndex DataMap G).isFloat64 = true)
    (hha : sel = Selector.fs → (mapIndex DataMap "tag.HAState").isString = true) :
    (collectBean c (NewNameNodeExporter c check opt) DataMap).sent.map (fun m => m.desc)
      = sel.descs (NewNameNodeExporter c check opt) ∧
    (Selector.fs.descs (NewNameNodeExporter c check opt)).Sublist
      (declaredDescs (NewNameNodeExporter c check opt)) ∧
    (declaredDescs (NewNameNodeExporter c check opt)).Nodup ∧
    Selector.jvm.descs (NewNameNodeExporter c check opt)
      = [(NewNameNodeExporter c check opt).GcCount,
         (NewNameNodeExporter c check opt).GcTimeMillis]
        ++ [(NewNameNodeExporter c check opt).MemNonHeapMaxM,
            (NewNameNodeExporter c check opt).MemNonHeapUsedM,
            (NewNameNodeExporter c check opt).MemHeapMaxM,
            (NewNameNodeExporter c check opt).MemHeapUsedM,
            (NewNameNodeExporter c check opt).MemMaxM].reverse := by
  refine ⟨?_, fs_descs_sublist _, declaredDescs_nodup c check opt, rfl⟩
  rw [collectBean_ok c check opt sel DataMap hacc hsel hother hnum hha]
  simp [Selector.descs, Read.sample]

/-- The amended C8 on the exporter of `main`, for a well-typed JVM bean. -/
theorem C8_emission_order_witness :
    (Accepted (NewNameNodeExporter exConsts exCheck mainOpt) ∧
      Selector.jvm.matches exConsts exJVMGood = true ∧
      Selector.jvm.other.matches exConsts exJVMGood = false ∧
      (∀ G ∈ Selector.jvm.fields, (mapIndex exJVMGood G).isFloat64 = true)) ∧
    ((collectBean exConsts (NewNameNodeExporter exConsts exCheck mainOpt) exJVMGood).sent.map
        (fun m => m.desc)
      = Selector.jvm.descs (NewNameNodeExporter exConsts exCheck mainOpt) ∧
    (Selector.fs.descs (NewNameNodeExporter exConsts exCheck mainOpt)).Sublist
      (declaredDescs (NewNameNodeExporter exConsts exCheck mainOpt)) ∧
    (declaredDescs (NewNameNodeExporter exConsts exCheck mainOpt)).Nodup ∧
    Selector.jvm.descs (NewNameNodeExporter exConsts exCheck mainOpt)
      = [(NewNameNodeExporter exConsts exCheck mainOpt).GcCount,
         (NewNameNodeExporter exConsts exCheck mainOpt).GcTimeMillis]
        ++ [(NewNameNodeExporter exConsts exCheck mainOpt).MemNonHeapMaxM,
            (NewNameNodeExporter exConsts exCheck mainOpt).MemNonHeapUsedM,
            (NewNameNodeExporter exConsts exCheck mainOpt).MemHeapMaxM,
            (NewNameNodeExporter exConsts exCheck mainOpt).MemHeapUsedM,
            (NewNameNodeExporter exConsts exCheck mainOpt).MemMaxM].reverse) :=
  ⟨⟨by decide, by decide, by decide, by decide⟩,
   C8_emission_order exConsts exCheck mainOpt Selector.jvm exJVMGood
     (by decide) (by decide) (by decide) (by decide) (fun h => nomatch h)⟩

/-! ## C10: `Describe` and `Collect` -/

/-- C10, the code at the failing input: for a document with one well-typed filesystem bean
`Collect` sends a sample on the descriptor `CapacityUsedNonDFS`, which is not among the
descriptors `Describe` sends. -/
theorem C10_collect_uses_undescribed_descriptor :
    Accepted exExporter ∧
    exExporter.CapacityUsedNonDFS ∉ Describe exExporter ∧
    (∃ m ∈ (Collect exConsts (exGet 200 (exDoc [exFSActive])) exExporter).ch,
      m.desc = exExporter.CapacityUsedNonDFS ∧ m.desc ∉ Describe exExporter) ∧
    ¬ (∀ m ∈ (Collect exConsts (exGet 200 (exDoc [exFSActive])) exExporter).ch,
      m.desc ∈ Describe exExporter) := by
  decide

/-! ## C9: the parse of the body -/

theorem decodeMembers_no_array (kvs : List (String × Value))
    (h : kvs.any (fun kv => isBeansKey kv.1 &&
      (match kv.2 with | .slice _ => true | _ => false)) = false) :
    (decodeMembers BeansSlice.empty kvs).1 = BeansSlice.empty := by
  induction kvs with
  | nil => rfl
  | cons kv rest ih =>
    obtain ⟨key, v⟩ := kv
    simp only [List.any_cons, Bool.or_eq_false_iff, Bool.and_eq_false_iff] at h
    obtain ⟨hkv, hrest⟩ := h
    unfold decodeMembers
    by_cases hk : isBeansKey key = true
    · simp only [hk, if_true]
      have hv : (decodeBeans BeansSlice.empty v).1 = BeansSlice.empty := by
        cases v <;> simp_all [decodeBeans]
      rw [hv]
      exact ih hrest
    · simp only [hk]
      exact ih hrest

theorem decodeMembers_no_key (old : BeansSlice) (kvs : List (String × Value))
    (h : ∀ kv ∈ kvs, isBeansKey kv.1 = false) :
    decodeMembers old kvs = (old, none) := by
  induction kvs generalizing old with
  | nil => rfl
  | cons kv rest ih =>
    obtain ⟨key, v⟩ := kv
    have hk : isBeansKey key = false := h (key, v) (by simp)
    unfold decodeMembers
    simp only [hk]
    exact ih old (fun kv hkv => h kv (by simp [hkv]))

theorem jsonUnmarshal_no_array (p : Payload) (h : hasBeansArray p = false) :
    (jsonUnmarshal p).1.Beans = [] := by
  cases p with
  | invalid msg => rfl
  | valid v =>
    cases v with
    | map kvs =>
      simp only [jsonUnmarshal, decodeMembers_no_array kvs h]
      rfl
    | _ => rfl

/-- C9, the claim as stated fails, in two ways.  The body `{}` is valid JSON without a
`beans` array: `json.Unmarshal` returns no error for it, `Collect` prints nothing and returns
normally, so the cycle is not reported as failed.  The body whose only member is named
`BEANS` and holds an array with a JVM bean has no member named `beans`, yet `encoding/json`
matches member names ignoring case and `Collect` sends the 7 samples of the bean. -/
theorem C9_counterexample :
    (hasMemberBeansArray (Payload.valid (Value.map [])) = false ∧
      (jsonUnmarshal (Payload.valid (Value.map []))).2 = none ∧
      Collect exConsts (exGetPayload (Payload.valid (Value.map []))) exExporter
        = { stdout := [], ch := [], panic := none }) ∧
    (hasMemberBeansArray (Payload.valid exUpperDoc) = false ∧
      (Collect exConsts (exGetPayload (Payload.valid exUpperDoc)) exExporter).ch.length = 7 ∧
      (Collect exConsts (exGetPayload (Payload.valid exUpperDoc)) exExporter).ch ≠ [] ∧
      (Collect exConsts (exGetPayload (Payload.valid exUpperDoc)) exExporter).stdout = []) := by
  decide

/-- C9, amended: for every response body that is not valid JSON, or that is valid JSON in
which no top-level member whose name equals `beans` ignoring letter case (the way
`encoding/json` matches a member to the field) has an array as its value, `Collect` sends no
sample and does not panic.  When the body is not valid JSON the syntax error is printed.
When the body is an object none of whose members matches `beans`, `json.Unmarshal` returns no
error and no parse error is printed. -/
theorem C9_parse_failure (c : Consts) (e : NameNodeExporter) (httpGet : String → GetResult)
    (resp : Response)
    (hresp : (httpGet e.JmxUrl).resp = some resp)
    (hno : hasBeansArray resp.Body.data = false) :
    (Collect c httpGet e).ch = [] ∧
    (Collect c httpGet e).panic = none ∧
    (∀ msg, resp.Body.data = Payload.invalid msg → msg ∈ (Collect c httpGet e).stdout) ∧
    (∀ kvs, resp.Body.data = Payload.valid (Value.map kvs) →
      (∀ kv ∈ kvs, isBeansKey kv.1 = false) →
      (Collect c httpGet e).stdout
        = printErr (httpGet e.JmxUrl).err ++ printErr resp.Body.err) := by
  rw [Collect_of_resp c httpGet e resp hresp, jsonUnmarshal_no_array _ hno]
  refine ⟨rfl, rfl, ?_, ?_⟩
  · intro msg hmsg
    simp [hmsg, jsonUnmarshal, printErr]
  · intro kvs hkvs hkeys
    simp [hkvs, jsonUnmarshal, decodeMembers_no_key BeansSlice.empty kvs hkeys, printErr]

/-- The amended C9 on the exporter of `main`, for a body that is not JSON. -/
theorem C9_parse_failure_witness :
    ((exGetPayload exNotJSON exExporter.JmxUrl).resp
        = some { StatusCode := 200, Body := { data := exNotJSON, err := none } } ∧
      hasBeansArray exNotJSON = false) ∧
    ((Collect exConsts (exGetPayload exNotJSON) exExporter).ch = [] ∧
      (Collect exConsts (exGetPayload exNotJSON) exExporter).panic = none ∧
      (∀ msg, exNotJSON = Payload.invalid msg →
        msg ∈ (Collect exConsts (exGetPayload exNotJSON) exExporter).stdout) ∧
      (∀ kvs, exNotJSON = Payload.valid (Value.map kvs) →
        (∀ kv ∈ kvs, isBeansKey kv.1 = false) →
        (Collect exConsts (exGetPayload exNotJSON) exExporter).stdout
          = printErr (exGetPayload exNotJSON exExporter.JmxUrl).err ++ printErr none)) :=
  ⟨⟨rfl, rfl⟩,
   C9_parse_failure exConsts exExporter (exGetPayload exNotJSON)
     { StatusCode := 200, Body := { data := exNotJSON, err := none } } rfl rfl⟩

/-! ## C4: the status of the response -/

/-- C4, the claim as stated fails: a response with status 500 whose body is a document with
a well-typed filesystem bean yields 17 samples, and nothing is printed. -/
theorem C4_counterexample :
    (Collect exConsts (exGet 500 (exDoc [exFSActive])) exExporter).ch.length = 17 ∧
    (Collect exConsts (exGet 500 (exDoc [exFSActive])) exExporter).ch ≠ [] ∧
    (Collect exConsts (exGet 500 (exDoc [exFSActive])) exExporter).stdout = [] ∧
    (Collect exConsts (exGet 500 (exDoc [exFSActive])) exExporter).panic = none := by
  decide

/-- C4, amended: when `http.Get` returns the error `msg` and no response, `Collect` prints
`msg` and sends no sample.  When `http.Get` returns a response, `Collect` does not look at its
status code: with any other code in its place the call prints the same lines, sends the same
samples and ends the same way.  The samples and the end of the call are those of the loop
over the beans decoded from the body, and the lines printed are the errors of `http.Get`, of
the read and of `json.Unmarshal`, none for the status. -/
theorem C4_fetch_failure (c : Consts) (e : NameNodeExporter)
    (httpGetErr httpGetResp : String → GetResult) (msg : String) (resp : Response) (code : Nat)
    (herr : httpGetErr e.JmxUrl = { resp := none, err := some msg })
    (hresp : (httpGetResp e.JmxUrl).resp = some resp) :
    ((Collect c httpGetErr e).ch = [] ∧ (Collect c httpGetErr e).stdout = [msg]) ∧
    Collect c (fun url => (httpGetResp url).withStatus code) e = Collect c httpGetResp e ∧
    (Collect c httpGetResp e).ch
      = (collectBeans c e (jsonUnmarshal resp.Body.data).1.Beans).sent ∧
    (Collect c httpGetResp e).panic
      = (collectBeans c e (jsonUnmarshal resp.Body.data).1.Beans).panic ∧
    (Collect c httpGetResp e).stdout
      = printErr (httpGetResp e.JmxUrl).err ++ printErr resp.Body.err
          ++ printErr (jsonUnmarshal resp.Body.data).2 := by
  refine ⟨?_, Collect_withStatus c httpGetResp e code, ?_, ?_, ?_⟩
  · simp [Collect, herr, printErr]
  · rw [Collect_of_resp c httpGetResp e resp hresp]
  · rw [Collect_of_resp c httpGetResp e resp hresp]
  · rw [Collect_of_resp c httpGetResp e resp hresp]

/-- The amended C4 on the exporter of `main`: a refused connection, and a response with a
filesystem bean whose status is changed to 500. -/
theorem C4_fetch_failure_witness :
    (exGetFails exExporter.JmxUrl
        = { resp := none, err := some "Get: dial tcp: connection refused" } ∧
      (exGet 200 (exDoc [exFSActive]) exExporter.JmxUrl).resp
        = some { StatusCode := 200,
                 Body := { data := Payload.valid (exDoc [exFSActive]), err := none } }) ∧
    (((Collect exConsts exGetFails exExporter).ch = [] ∧
        (Collect exConsts exGetFails exExporter).stdout
          = ["Get: dial tcp: connection refused"]) ∧
      Collect exConsts (fun url => (exGet 200 (exDoc [exFSActive]) url).withStatus 500)
          exExporter
        = Collect exConsts (exGet 200 (exDoc [exFSActive])) exExporter ∧
      (Collect exConsts (exGet 200 (exDoc [exFSActive])) exExporter).ch
        = (collectBeans exConsts exExporter
            (jsonUnmarshal (Payload.valid (exDoc [exFSActive]))).1.Beans).sent ∧
      (Collect exConsts (exGet 200 (exDoc [exFSActive])) exExporter).panic
        = (collectBeans exConsts exExporter
            (jsonUnmarshal (Payload.valid (exDoc [exFSActive]))).1.Beans).panic ∧
      (Collect exConsts (exGet 200 (exDoc [exFSActive])) exExporter).stdout
        = printErr (exGet 200 (exDoc [exFSActive]) exExporter.JmxUrl).err ++ printErr none
            ++ printErr (jsonUnmarshal (Payload.valid (exDoc [exFSActive]))).2) :=
  ⟨⟨rfl, rfl⟩,
   C4_fetch_failure exConsts exExporter exGetFails (exGet 200 (exDoc [exFSActive]))
     "Get: dial tcp: connection refused"
     { StatusCode := 200,
       Body := { data := Payload.valid (exDoc [exFSActive]), err := none } }
     500 rfl rfl⟩

/-! ## C2: the samples of a filesystem bean -/

theorem fs_reads_split (e : NameNodeExporter) :
    Selector.fs.reads e = (Selector.fs.reads e).take 16 ++ Read.haState :: [] := by
  rfl

theorem fs_gauges_wellTyped (e : NameNodeExporter) (DataMap : Bean)
    (hnum : ∀ F ∈ Selector.fs.fields, (mapIndex DataMap F).isFloat64 = true) :
    ∀ q ∈ (Selector.fs.reads e).take 16, q.WellTyped DataMap = true := by
  intro q hq
  simp [Selector.reads] at hq
  casesm* _ ∨ _ <;>
    (rename_i h; subst h; exact hnum _ (by simp [Selector.fields]))

/-- C2, the claim as stated fails: a filesystem bean with its 16 numeric fields float64 and
no `tag.HAState` gets 16 samples, not 17, and `Collect` panics at the type assertion of
`tag.HAState`. -/
theorem C2_counterexample :
    Accepted exExporter ∧
    (mapIndex exFSNoHA "name").eqString exConsts.NNFSMetrics = true ∧
    (∀ F ∈ Selector.fs.fields, (mapIndex exFSNoHA F).isFloat64 = true) ∧
    (Collect exConsts (exGet 200 (exDoc [exFSNoHA])) exExporter).ch.length = 16 ∧
    (Collect exConsts (exGet 200 (exDoc [exFSNoHA])) exExporter).ch.length ≠ 17 ∧
    (Collect exConsts (exGet 200 (exDoc [exFSNoHA])) exExporter).panic
      = some (Panic.interfaceConversion "nil" "string") := by
  decide

/-- C2, amended: take a document whose beans are `pre`, then a bean named as the filesystem
selector (and not as the JVM selector) with its 16 numeric fields float64, then `post`, an
exporter with accepted descriptors, and no panic of `Collect` on the beans of `pre`.  When
`tag.HAState` of the bean is a string, the samples sent for the bean are exactly the 17 of
the statements of the filesystem block, in order: the gauge of each of the 16 fields on the
descriptor of that field with the value of that field, then the gauge on `HAState`; they are
sent after the samples of `pre` and before those of `post`.  When `tag.HAState` is absent or
not a string, the samples sent for the bean are exactly the 16 gauges of the fields, and
`Collect` then panics with the failed conversion to string, so nothing of `post` is sent.
Every one of these samples is a gauge with the label values `[cluster, Hostname]`. -/
theorem C2_fs_bean_samples (c : Consts) (check : DescCheck) (opt : NameNodeExportOpt)
    (httpGet : String → GetResult) (resp : Response) (pre post : List Bean) (DataMap : Bean)
    (hacc : Accepted (NewNameNodeExporter c check opt))
    (hresp : (httpGet opt.JmxUrl).resp = some resp)
    (hdoc : (jsonUnmarshal resp.Body.data).1.Beans = pre ++ DataMap :: post)
    (hpre : (collectBeans c (NewNameNodeExporter c check opt) pre).panic = none)
    (hname : (mapIndex DataMap "name").eqString c.NNFSMetrics = true)
    (hjvm : (mapIndex DataMap "name").eqString c.NNJVMMetrics = false)
    (hnum : ∀ F ∈ Selector.fs.fields, (mapIndex DataMap F).isFloat64 = true) :
    ((mapIndex DataMap "tag.HAState").isString = true →
      collectBean c (NewNameNodeExporter c check opt) DataMap
        = { sent := (Selector.fs.reads (NewNameNodeExporter c check opt)).map
              (Read.sample (NewNameNodeExporter c check opt) DataMap),
            panic := none } ∧
      (Collect c httpGet (NewNameNodeExporter c check opt)).ch
        = (collectBeans c (NewNameNodeExporter c check opt) pre).sent
            ++ (Selector.fs.reads (NewNameNodeExporter c check opt)).map
                (Read.sample (NewNameNodeExporter c check opt) DataMap)
            ++ (collectBeans c (NewNameNodeExporter c check opt) post).sent) ∧
    ((mapIndex DataMap "tag.HAState").isString = false →
      collectBean c (NewNameNodeExporter c check opt) DataMap
        = { sent := ((Selector.fs.reads (NewNameNodeExporter c check opt)).take 16).map
              (Read.sample (NewNameNodeExporter c check opt) DataMap),
            panic := some (Panic.interfaceConversion
              (mapIndex DataMap "tag.HAState").typeName "string") } ∧
      (Collect c httpGet (NewNameNodeExporter c check opt)).ch
        = (collectBeans c (NewNameNodeExporter c check opt) pre).sent
            ++ ((Selector.fs.reads (NewNameNodeExporter c check opt)).take 16).map
                (Read.sample (NewNameNodeExporter c check opt) DataMap) ∧
      (Collect c httpGet (NewNameNodeExporter c check opt)).panic
        = some (Panic.interfaceConversion
            (mapIndex DataMap "tag.HAState").typeName "string")) ∧
    ((Selector.fs.reads (NewNameNodeExporter c check opt)).map
        (Read.sample (NewNameNodeExporter c check opt) DataMap)).length = 17 ∧
    (((Selector.fs.reads (NewNameNodeExporter c check opt)).take 16).map
        (Read.sample (NewNameNodeExporter c check opt) DataMap)).length = 16 ∧
    ((Selector.fs.reads (NewNameNodeExporter c check opt)).take 16).map
        (fun r => ((Read.sample (NewNameNodeExporter c check opt) DataMap r).desc.fqName,
          (Read.sample (NewNameNodeExporter c check opt) DataMap r).val))
      = Selector.fs.fields.map
          (fun F => (opt.PromNamespace ++ "_" ++ F, (mapIndex DataMap F).toFloat64)) ∧
    ((Selector.fs.reads (NewNameNodeExporter c check opt)).drop 16).map
        (fun r => (Read.sample (NewNameNodeExporter c check opt) DataMap r).desc)
      = [(NewNameNodeExporter c check opt).HAState] ∧
    (∀ m ∈ (Selector.fs.reads (NewNameNodeExporter c check opt)).map
        (Read.sample (NewNameNodeExporter c check opt) DataMap),
      m.valType = ValueType.GaugeValue ∧ m.labelValues = [opt.cluster, opt.Hostname]) := by
  have hurl : (NewNameNodeExporter c check opt).JmxUrl = opt.JmxUrl := rfl
  have hcollect := Collect_of_resp c httpGet (NewNameNodeExporter c check opt) resp
    (by rw [hurl]; exact hresp)
  refine ⟨?_, ?_, rfl, rfl, rfl, rfl, ?_⟩
  · intro hha
    have hbean := collectBean_ok c check opt Selector.fs DataMap hacc hname hjvm hnum
      (fun _ => hha)
    refine ⟨hbean, ?_⟩
    rw [hcollect, hdoc, collectBeans_split_ok c _ pre post DataMap _ hpre hbean]
  · intro hha
    have hbean : collectBean c (NewNameNodeExporter c check opt) DataMap
        = { sent := ((Selector.fs.reads (NewNameNodeExporter c check opt)).take 16).map
              (Read.sample (NewNameNodeExporter c check opt) DataMap),
            panic := some (Read.panicOf DataMap Read.haState) } := by
      rw [collectBean_of_matches c _ DataMap Selector.fs hname hjvm, Selector.block_eq_reads]
      conv => lhs; rw [fs_reads_split]
      refine reads_block_fail _ DataMap _ [] Read.haState (fun q hq => ⟨?_, ?_⟩)
        (fs_gauges_wellTyped _ DataMap hnum) hha
      · exact hacc _ (reads_desc_mem _ Selector.fs q (List.mem_of_mem_take hq))
      · exact new_labels_length c check opt _
          (reads_desc_mem _ Selector.fs q (List.mem_of_mem_take hq))
    refine ⟨hbean, ?_, ?_⟩
    · rw [hcollect, hdoc, collectBeans_split_panic c _ pre post DataMap _ _ hpre hbean]
    · rw [hcollect, hdoc, collectBeans_split_panic c _ pre post DataMap _ _ hpre hbean]
      rfl
  · intro m hm
    obtain ⟨r, _, rfl⟩ := List.mem_map.1 hm
    exact ⟨rfl, rfl⟩

/-- The amended C2 on the exporter of `main`: a filesystem bean in state `Active` between a
JVM bean and a bean of another name gets its 17 samples, and a filesystem bean without
`tag.HAState` after a JVM bean gets its 16 gauges before the panic. -/
theorem C2_fs_bean_samples_witness :
    (Accepted (NewNameNodeExporter exConsts exCheck mainOpt) ∧
      (exGet 200 exMixedDoc mainOpt.JmxUrl).resp = some exMixedResp ∧
      (jsonUnmarshal exMixedResp.Body.data).1.Beans = [exJVMGood] ++ exFSActive :: [exOtherBean] ∧
      (collectBeans exConsts (NewNameNodeExporter exConsts exCheck mainOpt) [exJVMGood]).panic = none ∧
      (mapIndex exFSActive "name").eqString exConsts.NNFSMetrics = true ∧
      (mapIndex exFSActive "name").eqString exConsts.NNJVMMetrics = false ∧
      (∀ F ∈ Selector.fs.fields, (mapIndex exFSActive F).isFloat64 = true) ∧
      (mapIndex exFSActive "tag.HAState").isString = true) ∧
    (collectBean exConsts (NewNameNodeExporter exConsts exCheck mainOpt) exFSActive
        = { sent := (Selector.fs.reads (NewNameNodeExporter exConsts exCheck mainOpt)).map (Read.sample (NewNameNodeExporter exConsts exCheck mainOpt) exFSActive), panic := none } ∧
      (Collect exConsts (exGet 200 exMixedDoc) (NewNameNodeExporter exConsts exCheck mainOpt)).ch
        = (collectBeans exConsts (NewNameNodeExporter exConsts exCheck mainOpt) [exJVMGood]).sent
            ++ (Selector.fs.reads (NewNameNodeExporter exConsts exCheck mainOpt)).map (Read.sample (NewNameNodeExporter exConsts exCheck mainOpt) exFSActive)
            ++ (collectBeans exConsts (NewNameNodeExporter exConsts exCheck mainOpt) [exOtherBean]).sent) ∧
    ((exGet 200 exNoHADoc mainOpt.JmxUrl).resp = some exNoHAResp ∧
      (jsonUnmarshal exNoHAResp.Body.data).1.Beans = [exJVMGood] ++ exFSNoHA :: [exJVMGood] ∧
      (mapIndex exFSNoHA "name").eqString exConsts.NNFSMetrics = true ∧
      (mapIndex exFSNoHA "name").eqString exConsts.NNJVMMetrics = false ∧
      (∀ F ∈ Selector.fs.fields, (mapIndex exFSNoHA F).isFloat64 = true) ∧
      (mapIndex exFSNoHA "tag.HAState").isString = false) ∧
    (collectBean exConsts (NewNameNodeExporter exConsts exCheck mainOpt) exFSNoHA
        = { sent := ((Selector.fs.reads (NewNameNodeExporter exConsts exCheck mainOpt)).take 16).map (Read.sample (NewNameNodeExporter exConsts exCheck mainOpt) exFSNoHA),
            panic := some (Panic.interfaceConversion
              (mapIndex exFSNoHA "tag.HAState").typeName "string") } ∧
      (Collect exConsts (exGet 200 exNoHADoc) (NewNameNodeExporter exConsts exCheck mainOpt)).ch
        = (collectBeans exConsts (NewNameNodeExporter exConsts exCheck mainOpt) [exJVMGood]).sent
            ++ ((Selector.fs.reads (NewNameNodeExporter exConsts exCheck mainOpt)).take 16).map (Read.sample (NewNameNodeExporter exConsts exCheck mainOpt) exFSNoHA) ∧
      (Collect exConsts (exGet 200 exNoHADoc) (NewNameNodeExporter exConsts exCheck mainOpt)).panic
        = some (Panic.interfaceConversion
            (mapIndex exFSNoHA "tag.HAState").typeName "string")) :=
  ⟨⟨by decide, rfl, rfl, by decide, by decide, by decide, by decide, by decide⟩,
   (C2_fs_bean_samples exConsts exCheck mainOpt (exGet 200 exMixedDoc) exMixedResp
      [exJVMGood] [exOtherBean] exFSActive
      (by decide) rfl rfl (by decide) (by decide) (by decide) (by decide)).1 (by decide),
   ⟨rfl, rfl, by decide, by decide, by decide, by decide⟩,
   (C2_fs_bean_samples exConsts exCheck mainOpt (exGet 200 exNoHADoc) exNoHAResp
      [exJVMGood] [exJVMGood] exFSNoHA
      (by decide) rfl rfl (by decide) (by decide) (by decide) (by decide)).2.1 (by decide)⟩

/-! ## C1: the encoding of the HA state -/

theorem tokens_exclusive (s a b : String)
    (ha : ∀ x ∈ a.data, 97 ≤ x.toNat ∧ x.toNat ≤ 122)
    (hb : ∀ x ∈ b.data, 97 ≤ x.toNat ∧ x.toNat ≤ 122)
    (hab : a ≠ b) (h : EqualsIgnoreCase s a) : ¬ EqualsIgnoreCase s b := by
  intro h2
  exact hab (((stringsToLower_eq_iff s a ha).2 h).symm.trans
    ((stringsToLower_eq_iff s b hb).2 h2))

theorem specHAStateCode_cases (s : String) :
    (EqualsIgnoreCase s "stopping" → specHAStateCode s = 0) ∧
    (EqualsIgnoreCase s "active" → specHAStateCode s = 1) ∧
    (EqualsIgnoreCase s "initializing" → specHAStateCode s = 3) ∧
    (EqualsIgnoreCase s "standby" → specHAStateCode s = 4) ∧
    (¬ EqualsIgnoreCase s "stopping" → ¬ EqualsIgnoreCase s "active" →
      ¬ EqualsIgnoreCase s "initializing" → ¬ EqualsIgnoreCase s "standby" →
      specHAStateCode s = -1) := by
  refine ⟨?_, ?_, ?_, ?_, ?_⟩
  · intro h
    simp [specHAStateCode, h]
  · intro h
    have n1 : ¬ EqualsIgnoreCase s "stopping" :=
      tokens_exclusive s _ _ (by decide) (by decide) (by decide) h
    simp [specHAStateCode, h, n1]
  · intro h
    have n1 : ¬ EqualsIgnoreCase s "stopping" :=
      tokens_exclusive s _ _ (by decide) (by decide) (by decide) h
    have n2 : ¬ EqualsIgnoreCase s "active" :=
      tokens_exclusive s _ _ (by decide) (by decide) (by decide) h
    simp [specHAStateCode, h, n1, n2]
  · intro h
    have n1 : ¬ EqualsIgnoreCase s "stopping" :=
      tokens_exclusive s _ _ (by decide) (by decide) (by decide) h
    have n2 : ¬ EqualsIgnoreCase s "active" :=
      tokens_exclusive s _ _ (by decide) (by decide) (by decide) h
    have n3 : ¬ EqualsIgnoreCase s "initializing" :=
      tokens_exclusive s _ _ (by decide) (by decide) (by decide) h
    simp [specHAStateCode, h, n1, n2, n3]
  · intro n1 n2 n3 n4
    simp [specHAStateCode, n1, n2, n3, n4]

/-- C1: take a document whose beans are `pre`, then a bean named as the filesystem selector
(and not as the JVM selector) with its 16 numeric fields float64 and `tag.HAState` the string
`s`, then `post`, an exporter with accepted descriptors, and no panic of `Collect` on the beans
of `pre`.  Then the switch on `tag.HAState` sends exactly one sample and does not panic, and
among the samples `Collect` sends for the bean exactly one is on the descriptor named
`PromNamespace_HAState`: a gauge on `HAState` with the labels of the exporter whose value is 0
when `s` equals "stopping" ignoring letter case, 1 for "active", 3 for "initializing", 4 for
"standby" and -1 for every other string.  Equality ignoring letter case is the one of the
table of capital and small letters, not of the code's lower-casing. -/
theorem C1_haState_encoding (c : Consts) (check : DescCheck) (opt : NameNodeExportOpt)
    (httpGet : String → GetResult) (resp : Response) (pre post : List Bean) (DataMap : Bean)
    (s : String)
    (hacc : Accepted (NewNameNodeExporter c check opt))
    (hresp : (httpGet opt.JmxUrl).resp = some resp)
    (hdoc : (jsonUnmarshal resp.Body.data).1.Beans = pre ++ DataMap :: post)
    (hpre : (collectBeans c (NewNameNodeExporter c check opt) pre).panic = none)
    (hname : (mapIndex DataMap "name").eqString c.NNFSMetrics = true)
    (hjvm : (mapIndex DataMap "name").eqString c.NNJVMMetrics = false)
    (hnum : ∀ F ∈ Selector.fs.fields, (mapIndex DataMap F).isFloat64 = true)
    (hs : mapIndex DataMap "tag.HAState" = Value.string s) :
    ∃ (code : Float64) (samples : List Metric),
      switchHAState (NewNameNodeExporter c check opt) DataMap
        = { sent := [{ desc := (NewNameNodeExporter c check opt).HAState,
                       valType := ValueType.GaugeValue, val := code,
                       labelValues := [opt.cluster, opt.Hostname] }],
            panic := none } ∧
      collectBean c (NewNameNodeExporter c check opt) DataMap
        = { sent := samples, panic := none } ∧
      (Collect c httpGet (NewNameNodeExporter c check opt)).ch
        = (collectBeans c (NewNameNodeExporter c check opt) pre).sent ++ samples
            ++ (collectBeans c (NewNameNodeExporter c check opt) post).sent ∧
      samples.filter (fun m => decide (m.desc.fqName = opt.PromNamespace ++ "_" ++ "HAState"))
        = [{ desc := (NewNameNodeExporter c check opt).HAState,
             valType := ValueType.GaugeValue, val := code,
             labelValues := [opt.cluster, opt.Hostname] }] ∧
      (EqualsIgnoreCase s "stopping" → code = 0) ∧
      (EqualsIgnoreCase s "active" → code = 1) ∧
      (EqualsIgnoreCase s "initializing" → code = 3) ∧
      (EqualsIgnoreCase s "standby" → code = 4) ∧
      (¬ EqualsIgnoreCase s "stopping" → ¬ EqualsIgnoreCase s "active" →
        ¬ EqualsIgnoreCase s "initializing" → ¬ EqualsIgnoreCase s "standby" → code = -1) := by
  have hha : (mapIndex DataMap "tag.HAState").isString = true := by
    rw [hs]
    rfl
  have hbean := collectBean_ok c check opt Selector.fs DataMap hacc hname hjvm hnum
    (fun _ => hha)
  have hurl : (NewNameNodeExporter c check opt).JmxUrl = opt.JmxUrl := rfl
  have hmem : (NewNameNodeExporter c check opt).HAState
      ∈ declaredDescs (NewNameNodeExporter c check opt) := by
    simp [declaredDescs]
  refine ⟨specHAStateCode s, _, ?_, hbean, ?_, ?_, specHAStateCode_cases s⟩
  · exact switchHAState_ok _ DataMap s (hacc _ hmem) (new_labels_length c check opt _ hmem) hs
  · rw [Collect_of_resp c httpGet _ resp (by rw [hurl]; exact hresp), hdoc,
      collectBeans_split_ok c _ pre post DataMap _ hpre hbean]
  · have hnd : ((Selector.fs.reads (NewNameNodeExporter c check opt)).map
        (fun r => (r.desc (NewNameNodeExporter c check opt)).fqName)).Nodup := by
      rw [reads_names]
      exact names_nodup _ _ (by decide)
    have hin : Read.haState ∈ Selector.fs.reads (NewNameNodeExporter c check opt) := by
      simp [Selector.reads]
    have hfilter := filter_map_unique
      (fun r => (Read.desc (NewNameNodeExporter c check opt) r).fqName)
      (Read.sample (NewNameNodeExporter c check opt) DataMap)
      (fun m => m.desc.fqName) (fun _ => rfl) _ hnd _ hin
    have hname2 : (Read.desc (NewNameNodeExporter c check opt) Read.haState).fqName
        = opt.PromNamespace ++ "_" ++ "HAState" := rfl
    simp only [hname2] at hfilter
    rw [hfilter]
    simp [Read.sample, Read.desc, Read.value, hs, Value.toStr, NewNameNodeExporter]

/-- C1 on the exporter of `main`, the scenario of the specification: a filesystem bean whose
`tag.HAState` is "Active", between a JVM bean and a bean of another name. -/
theorem C1_haState_encoding_witness :
    (Accepted (NewNameNodeExporter exConsts exCheck mainOpt) ∧
      (exGet 200 exMixedDoc mainOpt.JmxUrl).resp = some exMixedResp ∧
      (jsonUnmarshal exMixedResp.Body.data).1.Beans = [exJVMGood] ++ exFSActive :: [exOtherBean] ∧
      (collectBeans exConsts (NewNameNodeExporter exConsts exCheck mainOpt) [exJVMGood]).panic = none ∧
      (mapIndex exFSActive "name").eqString exConsts.NNFSMetrics = true ∧
      (mapIndex exFSActive "name").eqString exConsts.NNJVMMetrics = false ∧
      (∀ F ∈ Selector.fs.fields, (mapIndex exFSActive F).isFloat64 = true) ∧
      mapIndex exFSActive "tag.HAState" = Value.string "Active" ∧
      EqualsIgnoreCase "Active" "active") ∧
    ∃ (code : Float64) (samples : List Metric),
      switchHAState (NewNameNodeExporter exConsts exCheck mainOpt) exFSActive
        = { sent := [{ desc := (NewNameNodeExporter exConsts exCheck mainOpt).HAState, valType := ValueType.GaugeValue, val := code,
                       labelValues := [mainOpt.cluster, mainOpt.Hostname] }],
            panic := none } ∧
      collectBean exConsts (NewNameNodeExporter exConsts exCheck mainOpt) exFSActive = { sent := samples, panic := none } ∧
      (Collect exConsts (exGet 200 exMixedDoc) (NewNameNodeExporter exConsts exCheck mainOpt)).ch
        = (collectBeans exConsts (NewNameNodeExporter exConsts exCheck mainOpt) [exJVMGood]).sent ++ samples
            ++ (collectBeans exConsts (NewNameNodeExporter exConsts exCheck mainOpt) [exOtherBean]).sent ∧
      samples.filter
          (fun m => decide (m.desc.fqName = mainOpt.PromNamespace ++ "_" ++ "HAState"))
        = [{ desc := (NewNameNodeExporter exConsts exCheck mainOpt).HAState, valType := ValueType.GaugeValue, val := code,
             labelValues := [mainOpt.cluster, mainOpt.Hostname] }] ∧
      (EqualsIgnoreCase "Active" "stopping" → code = 0) ∧
      (EqualsIgnoreCase "Active" "active" → code = 1) ∧
      (EqualsIgnoreCase "Active" "initializing" → code = 3) ∧
      (EqualsIgnoreCase "Active" "standby" → code = 4) ∧
      (¬ EqualsIgnoreCase "Active" "stopping" → ¬ EqualsIgnoreCase "Active" "active" →
        ¬ EqualsIgnoreCase "Active" "initializing" → ¬ EqualsIgnoreCase "Active" "standby" →
        code = -1) :=
  ⟨⟨by decide, rfl, rfl, by decide, by decide, by decide, by decide, rfl, by decide⟩,
   C1_haState_encoding exConsts exCheck mainOpt (exGet 200 exMixedDoc) exMixedResp
     [exJVMGood] [exOtherBean] exFSActive "Active"
     (by decide) rfl rfl (by decide) (by decide) (by decide) (by decide) rfl⟩

end HadoopExporter
